import Mathlib

set_option maxHeartbeats 1000000

/-!
# Verification of the LibrePad UDP protocol engine and device registry

Shallow embedding of `src/controller_server/librepad_udp.py` and
`src/controller_server/device_registry.py`.

Modelling conventions:
* a byte string is a `List Nat` (each element a byte value 0..255; theorems
  that depend on byte ranges state them as hypotheses);
* Python `dict`s are association lists (`List (key × value)`) with the same
  insertion-order semantics: assignment replaces in place or appends,
  `del` removes the entry;
* Python floats are modelled by `ℚ` (every value the claims mention is
  exactly representable and the clamp bounds make rounding at the
  endpoints irrelevant);
* `time.time()` is an external input, passed as a `now : Nat` argument;
* side effects (sent frames, device method calls, scheduled registry
  releases and scheduled CONNECT acquisitions) are collected in an
  `Effects` record instead of performed;
* a handler body wrapped in `try/except` that only logs is modelled as a
  `...Core` function returning `Except String Effects` plus a wrapper that
  maps `.error` to no effects;
* the `asyncio` task spawned by CONNECT is modelled as a separate trace
  operation (`EngOp.taskConnect`) whose registry outcome is an oracle
  argument, mirroring that the registry is a separate component.
-/

namespace LibrePad

/-- Client address `(host, port)` (abstract). -/
abbrev Addr := Nat × Nat

/-! ## Byte-string helpers (Python `struct.unpack` on little-endian slices) -/

/-- `payload[i]` with Python's guarded accesses; all reads in the source are
length-guarded, so out-of-range defaults are never exercised on the
guarded paths. -/
def byteAt (p : List Nat) (i : Nat) : Nat := p.getD i 0

/-- `struct.unpack('<H', ...)`: little-endian unsigned 16-bit. -/
def u16le (b0 b1 : Nat) : Nat := b0 + 256 * b1

/-- `struct.unpack('<I', ...)`: little-endian unsigned 32-bit. -/
def u32le (b0 b1 b2 b3 : Nat) : Nat :=
  b0 + 256 * b1 + 65536 * b2 + 16777216 * b3

/-- Reinterpret an unsigned 16-bit value as signed (`struct.unpack('<h', ...)`). -/
def toI16 (n : Nat) : Int := if n < 32768 then (n : Int) else (n : Int) - 65536

/-- Python slice `p[a:b]`. -/
def seg (p : List Nat) (a b : Nat) : List Nat := (p.drop a).take (b - a)

/-- Little-endian 4-byte encoding of a 32-bit value (`struct.pack('<I', n)`). -/
def u32bytes (n : Nat) : List Nat :=
  [n % 256, n / 256 % 256, n / 65536 % 256, n / 16777216 % 256]

/-! ## Association lists: the model of Python `dict` -/

section AList

variable {α : Type} {β : Type} [DecidableEq α]

/-- `d.get(k)` / `d[k]` lookup. -/
def alookup : List (α × β) → α → Option β
  | [], _ => none
  | (k, v) :: t, a => if k = a then some v else alookup t a

/-- The key list of an association list. -/
def akeys (l : List (α × β)) : List α := l.map Prod.fst

/-- `k in d`. -/
def acontains (l : List (α × β)) (a : α) : Bool := (alookup l a).isSome

/-- `d[k] = v`: replace in place if present, else append (Python dict
assignment preserves insertion order). -/
def ainsert (l : List (α × β)) (a : α) (v : β) : List (α × β) :=
  if acontains l a then l.map (fun p => if p.1 = a then (a, v) else p)
  else l ++ [(a, v)]

/-- Update the value stored at a key in place (models mutating an object
held in a dict, e.g. `sessions[sid].last_seen = ...`). -/
def aupdate (l : List (α × β)) (a : α) (f : β → β) : List (α × β) :=
  l.map (fun p => if p.1 = a then (p.1, f p.2) else p)

/-- `del d[k]`. -/
def aerase (l : List (α × β)) (a : α) : List (α × β) :=
  l.filter (fun p => decide (p.1 ≠ a))

/-- `d.get(k, default)`. -/
def alookupD (l : List (α × β)) (a : α) (dflt : β) : β :=
  (alookup l a).getD dflt

end AList

/-! ## Protocol constants (`librepad_udp.py` top of file) -/

def MSG_HELLO : Nat := 0x01
def MSG_WELCOME : Nat := 0x02
def MSG_PING : Nat := 0x03
def MSG_PONG : Nat := 0x04
def MSG_SESSION_END : Nat := 0x05
def MSG_CONNECT : Nat := 0x10
def MSG_DISCONNECT : Nat := 0x11
def MSG_BUTTON : Nat := 0x20
def MSG_AXIS : Nat := 0x21
def MSG_MOUSE_MOVE : Nat := 0x22
def MSG_MOUSE_BUTTON : Nat := 0x23
def MSG_MOUSE_SCROLL : Nat := 0x26
def MSG_ERROR : Nat := 0x30
def MSG_STATUS : Nat := 0x32
def MSG_BATCH : Nat := 0x40

def PROTOCOL_VERSION : Nat := 1

def CTRL_MOUSE_LEFT : Nat := 0x0201
def CTRL_MOUSE_RIGHT : Nat := 0x0202
def CTRL_MOUSE_MIDDLE : Nat := 0x0203

/-- A control code's kind: `"button"` or `"axis"` in `CONTROL_CODE_MAP`. -/
inductive CtrlKind where
  | button
  | axis
deriving DecidableEq, Repr

/-- The Control Code Table (`CONTROL_CODE_MAP`): 16-bit code to
`(kind, logical name)`. -/
def control_code_map (c : Nat) : Option (CtrlKind × String) :=
  match c with
  | 0x0001 => some (.button, "a")
  | 0x0002 => some (.button, "b")
  | 0x0003 => some (.button, "x")
  | 0x0004 => some (.button, "y")
  | 0x0005 => some (.button, "l1")
  | 0x0006 => some (.button, "r1")
  | 0x0007 => some (.button, "l2_click")
  | 0x0008 => some (.button, "r2_click")
  | 0x0009 => some (.button, "dpad_up")
  | 0x000A => some (.button, "dpad_down")
  | 0x000B => some (.button, "dpad_left")
  | 0x000C => some (.button, "dpad_right")
  | 0x000D => some (.button, "back")
  | 0x000E => some (.button, "start")
  | 0x000F => some (.button, "guide")
  | 0x0010 => some (.button, "l3")
  | 0x0011 => some (.button, "r3")
  | 0x0101 => some (.axis, "lx")
  | 0x0102 => some (.axis, "ly")
  | 0x0103 => some (.axis, "rx")
  | 0x0104 => some (.axis, "ry")
  | 0x0105 => some (.axis, "lt")
  | 0x0106 => some (.axis, "rt")
  | 0x0107 => some (.axis, "dpad_x")
  | 0x0108 => some (.axis, "dpad_y")
  | 0x0201 => some (.button, "left")
  | 0x0202 => some (.button, "right")
  | 0x0203 => some (.button, "middle")
  | _ => none

/-- Does a code resolve to kind `button` in the table? -/
def isButtonCode (c : Nat) : Bool :=
  match control_code_map c with
  | some (.button, _) => true
  | _ => false

/-- Does a code resolve to kind `axis` in the table? -/
def isAxisCode (c : Nat) : Bool :=
  match control_code_map c with
  | some (.axis, _) => true
  | _ => false

/-! ## Devices, frames, effects -/

/-- Optional capabilities of a bound device, probed by `hasattr` in the
source (`move_relative`, `scroll`, `set_axis`). -/
structure DeviceCaps where
  hasMoveRelative : Bool
  hasScroll : Bool
  hasSetAxis : Bool
deriving DecidableEq, Repr

/-- A method invocation on the session's bound device. -/
inductive DeviceCall where
  | setButton (name : String) (pressed : Bool)
  | setAxis (name : String) (value : ℚ)
  | moveRelative (dx dy : Int)
  | scroll (amount : Int)
deriving DecidableEq, Repr

/-- Payload of an outbound frame (codec-level abstraction of the packed
bytes built by the `_send_*` helpers). -/
inductive FrameBody where
  | empty
  | welcome (sessionId : Nat) (acceptedCaps : Nat)
  | status (code : Nat) (msg : String)
  | error (code : Nat) (msg : String)
deriving DecidableEq, Repr

/-- An outbound datagram: the common header fields plus the payload, as
assembled by `_send_message`. -/
structure Frame where
  addr : Addr
  msgType : Nat
  flags : Nat
  sessionId : Nat
  seq : Nat
  body : FrameBody
deriving DecidableEq, Repr

/-- The fixed string-to-code table in `_send_error`, with default `0x0005`. -/
def error_codes (errorType : String) : Nat :=
  match errorType with
  | "InvalidMessage" => 0x0001
  | "UnknownDevice" => 0x0002
  | "NotConnected" => 0x0003
  | "ConnectFailed" => 0x0001
  | "UnsupportedVersion" => 0x0001
  | "UnknownMessage" => 0x0001
  | "InternalError" => 0x0005
  | _ => 0x0005

/-- `_send_error(addr, session_id, error_type, message)`: an ERROR frame
with `seq = 0`, `flags = 0`. -/
def mkErrorFrame (addr : Addr) (sessionId : Nat) (errorType msg : String) : Frame :=
  ⟨addr, MSG_ERROR, 0, sessionId, 0, .error (error_codes errorType) msg⟩

/-- `_send_status`: a STATUS frame with `seq = 0`, `flags = 0`. -/
def mkStatusFrame (addr : Addr) (sessionId : Nat) (code : Nat) (msg : String) : Frame :=
  ⟨addr, MSG_STATUS, 0, sessionId, 0, .status code msg⟩

/-- `_send_welcome`: session id echoed in the payload; accepted
capabilities fixed at `CAP_ACK | CAP_TIMESTAMP | CAP_BATCH = 0x0B`. -/
def mkWelcomeFrame (addr : Addr) (sessionId seq : Nat) : Frame :=
  ⟨addr, MSG_WELCOME, 0, sessionId, seq, .welcome sessionId 0x0B⟩

/-- `_send_pong`: empty payload, echoes `session_id`, `seq`, `flags`. -/
def mkPongFrame (addr : Addr) (sessionId seq flags : Nat) : Frame :=
  ⟨addr, MSG_PONG, flags, sessionId, seq, .empty⟩

/-- A CONNECT acquisition scheduled with `asyncio.create_task`. -/
structure ConnectReq where
  sid : Nat
  deviceType : List Nat
  displayName : List Nat
  addr : Addr
deriving DecidableEq, Repr

/-- Collected side effects of processing: frames sent, device methods
called, registry releases scheduled, CONNECT acquisitions scheduled. -/
structure Effects where
  frames : List Frame
  calls : List DeviceCall
  releases : List (List Nat)
  connects : List ConnectReq
deriving DecidableEq, Repr

def effNone : Effects := ⟨[], [], [], []⟩
def effFrame (f : Frame) : Effects := ⟨[f], [], [], []⟩
def effCall (c : DeviceCall) : Effects := ⟨[], [c], [], []⟩
def effCalls (cs : List DeviceCall) : Effects := ⟨[], cs, [], []⟩
def effRelease (t : List Nat) : Effects := ⟨[], [], [t], []⟩
def effConnect (r : ConnectReq) : Effects := ⟨[], [], [], [r]⟩

instance : Append Effects :=
  ⟨fun a b => ⟨a.frames ++ b.frames, a.calls ++ b.calls,
               a.releases ++ b.releases, a.connects ++ b.connects⟩⟩

/-- Concatenation of a list of effect records, in order. -/
def concatEffects (l : List Effects) : Effects := l.foldr (fun a b => a ++ b) effNone

/-! ## Session and engine state -/

/-- The `Session` dataclass. Strings received from the wire
(`client_name`, `device_type`) are kept as their byte sequences. -/
structure Session where
  sessionId : Nat
  clientAddr : Addr
  device : Option DeviceCaps
  deviceId : Nat
  deviceType : List Nat
  lastSeen : Nat
  caps : Nat
  clientName : List Nat
deriving DecidableEq, Repr

/-- Mutable state of `LibrePadUDPProtocol`: the session table, the
address map, the session-id counter and whether a device registry has
been attached. -/
structure EngineState where
  sessions : List (Nat × Session)
  addrToSession : List (Addr × Nat)
  nextSessionId : Nat
  hasRegistry : Bool
deriving DecidableEq, Repr

/-- `LibrePadUDPProtocol.__init__` (the registry is attached by
`set_device_registry`, passed here as a flag). -/
def initState (hasReg : Bool) : EngineState := ⟨[], [], 1000, hasReg⟩

/-! ## UTF-8 validity (Python `bytes.decode('utf-8')` succeeds iff valid) -/

/-- A UTF-8 continuation byte `0x80..0xBF`. -/
def contByte (c : Nat) : Bool := 0x80 ≤ c && c ≤ 0xBF

/-- Strict UTF-8 validity as checked by Python's `bytes.decode('utf-8')`:
no overlong forms, no surrogates, maximum code point `U+10FFFF`. -/
def validUtf8 : List Nat → Bool
  | [] => true
  | b :: rest =>
    if b < 0x80 then validUtf8 rest
    else if b < 0xC2 then false
    else if b ≤ 0xDF then
      match rest with
      | c1 :: r => contByte c1 && validUtf8 r
      | [] => false
    else if b ≤ 0xEF then
      match rest with
      | c1 :: c2 :: r =>
        (if b = 0xE0 then decide (0xA0 ≤ c1 ∧ c1 ≤ 0xBF)
         else if b = 0xED then decide (0x80 ≤ c1 ∧ c1 ≤ 0x9F)
         else contByte c1) && contByte c2 && validUtf8 r
      | _ => false
    else if b ≤ 0xF4 then
      match rest with
      | c1 :: c2 :: c3 :: r =>
        (if b = 0xF0 then decide (0x90 ≤ c1 ∧ c1 ≤ 0xBF)
         else if b = 0xF4 then decide (0x80 ≤ c1 ∧ c1 ≤ 0x8F)
         else contByte c1) && contByte c2 && contByte c3 && validUtf8 r
      | _ => false
    else false

/-! ## Input-event handlers

Each `_handle_*` method wraps its body in `try/except` that only logs.
The body is `handle_*Core : ... → Except String Effects` (a raised
`ValueError` is `.error`); the wrapper `handle_*` maps `.error` to no
effects, exactly as the `except` clause does. -/

/-- Body of `_handle_button` (lines 362-390). -/
def handle_buttonCore (s : EngineState) (payload : List Nat) (sid : Nat) :
    Except String Effects :=
  match alookup s.sessions sid with
  | none => .error "Unknown session"
  | some sess =>
    match sess.device with
    | none => .error "No device connected"
    | some _ =>
      if payload.length < 5 then .error "Invalid BUTTON payload"
      else
        let control_code := u16le (byteAt payload 2) (byteAt payload 3)
        let pressed := byteAt payload 4 != 0
        match control_code_map control_code with
        | none => .ok effNone
        | some (ctrlType, ctrlName) =>
          if ctrlType = .button then .ok (effCall (.setButton ctrlName pressed))
          else .ok effNone

/-- `_handle_button` with its logging `except` clause. -/
def handle_button (s : EngineState) (payload : List Nat) (_addr : Addr) (sid : Nat) :
    Effects :=
  match handle_buttonCore s payload sid with
  | .ok e => e
  | .error _ => effNone

/-- `clamp(value / 32767.0, -1.0, 1.0)` of `_handle_axis` line 414.
All values the claims mention are exactly representable, so `ℚ`
faithfully models the `float` arithmetic there. -/
def normalizeAxis (value : Int) : ℚ := max (-1 : ℚ) (min 1 ((value : ℚ) / 32767))

/-- Body of `_handle_axis` (lines 395-426). -/
def handle_axisCore (s : EngineState) (payload : List Nat) (sid : Nat) :
    Except String Effects :=
  match alookup s.sessions sid with
  | none => .error "Unknown session"
  | some sess =>
    match sess.device with
    | none => .error "No device connected"
    | some _ =>
      if payload.length < 6 then .error "Invalid AXIS payload"
      else
        let control_code := u16le (byteAt payload 2) (byteAt payload 3)
        let value := toI16 (u16le (byteAt payload 4) (byteAt payload 5))
        match control_code_map control_code with
        | none => .ok effNone
        | some (ctrlType, ctrlName) =>
          if ctrlType = .axis then .ok (effCall (.setAxis ctrlName (normalizeAxis value)))
          else .ok effNone

/-- `_handle_axis` with its logging `except` clause. -/
def handle_axis (s : EngineState) (payload : List Nat) (_addr : Addr) (sid : Nat) :
    Effects :=
  match handle_axisCore s payload sid with
  | .ok e => e
  | .error _ => effNone

/-- Body of `_handle_mouse_move` (lines 431-458). -/
def handle_mouse_moveCore (s : EngineState) (payload : List Nat) (sid : Nat) :
    Except String Effects :=
  match alookup s.sessions sid with
  | none => .error "Unknown session"
  | some sess =>
    match sess.device with
    | none => .error "No device connected"
    | some dev =>
      if payload.length < 4 then .error "Invalid MOUSE_MOVE payload"
      else
        let dx := toI16 (u16le (byteAt payload 0) (byteAt payload 1))
        let dy := toI16 (u16le (byteAt payload 2) (byteAt payload 3))
        if dev.hasMoveRelative then .ok (effCall (.moveRelative dx dy))
        else if dev.hasSetAxis then
          .ok (effCalls ((if dx ≠ 0 then [DeviceCall.setAxis "dx" (dx : ℚ)] else []) ++
                         (if dy ≠ 0 then [DeviceCall.setAxis "dy" (dy : ℚ)] else [])))
        else .ok effNone

/-- `_handle_mouse_move` with its logging `except` clause. -/
def handle_mouse_move (s : EngineState) (payload : List Nat) (_addr : Addr) (sid : Nat) :
    Effects :=
  match handle_mouse_moveCore s payload sid with
  | .ok e => e
  | .error _ => effNone

/-- Body of `_handle_mouse_button` (lines 463-491). -/
def handle_mouse_buttonCore (s : EngineState) (payload : List Nat) (sid : Nat) :
    Except String Effects :=
  match alookup s.sessions sid with
  | none => .error "Unknown session"
  | some sess =>
    match sess.device with
    | none => .error "No device connected"
    | some _ =>
      if payload.length < 3 then .error "Invalid MOUSE_BUTTON payload"
      else
        let control_code := u16le (byteAt payload 0) (byteAt payload 1)
        let pressed := byteAt payload 2 != 0
        match control_code_map control_code with
        | none => .ok effNone
        | some (ctrlType, ctrlName) =>
          if ctrlType = .button then .ok (effCall (.setButton ctrlName pressed))
          else .ok effNone

/-- `_handle_mouse_button` with its logging `except` clause. -/
def handle_mouse_button (s : EngineState) (payload : List Nat) (_addr : Addr) (sid : Nat) :
    Effects :=
  match handle_mouse_buttonCore s payload sid with
  | .ok e => e
  | .error _ => effNone

/-- Body of `_handle_mouse_scroll` (lines 496-527). -/
def handle_mouse_scrollCore (s : EngineState) (payload : List Nat) (sid : Nat) :
    Except String Effects :=
  match alookup s.sessions sid with
  | none => .error "Unknown session"
  | some sess =>
    match sess.device with
    | none => .error "No device connected"
    | some dev =>
      if payload.length < 4 then .error "Invalid MOUSE_SCROLL payload"
      else
        let sx := toI16 (u16le (byteAt payload 0) (byteAt payload 1))
        let sy := toI16 (u16le (byteAt payload 2) (byteAt payload 3))
        if dev.hasScroll then
          .ok (effCalls ((if sy ≠ 0 then [DeviceCall.scroll sy] else []) ++
                         (if sx ≠ 0 ∧ dev.hasSetAxis = true
                          then [DeviceCall.setAxis "hwheel" (sx : ℚ)] else [])))
        else if dev.hasSetAxis then
          .ok (effCalls ((if sy ≠ 0 then [DeviceCall.setAxis "wheel" (sy : ℚ)] else []) ++
                         (if sx ≠ 0 then [DeviceCall.setAxis "hwheel" (sx : ℚ)] else [])))
        else .ok effNone

/-- `_handle_mouse_scroll` with its logging `except` clause. -/
def handle_mouse_scroll (s : EngineState) (payload : List Nat) (_addr : Addr) (sid : Nat) :
    Effects :=
  match handle_mouse_scrollCore s payload sid with
  | .ok e => e
  | .error _ => effNone

/-! ## Batch decoder (`_handle_batch`, lines 532-671) -/

/-- A typed sub-event recognized inside a BATCH payload. -/
inductive BatchEvent where
  | button (deviceId code : Nat) (pressed : Bool)
  | axis (deviceId code : Nat) (value : Int)
  | mouseMove (dx dy : Int)
  | mouseButton (code : Nat) (pressed : Bool)
  | mouseScroll (sx sy : Int)
deriving DecidableEq, Repr

/-- The per-offset decision of `_handle_batch`: the five guarded
interpretation attempts in source order, on the remaining bytes `rest`
(`rest = payload[offset:]`; `offset + k <= len(payload)` is
`k ≤ rest.length`). Returns the recognized event and its size, or `none`
when no interpretation validates (the source then skips one byte).
The `try/except: pass` wrappers in the source are dead code — every
`struct.unpack` there operates on a length-checked exact slice — and are
dropped. -/
def batchClassify (rest : List Nat) : Option (BatchEvent × Nat) :=
  if 5 ≤ rest.length ∧ isButtonCode (u16le (byteAt rest 2) (byteAt rest 3)) = true then
    some (.button (u16le (byteAt rest 0) (byteAt rest 1))
                  (u16le (byteAt rest 2) (byteAt rest 3)) (byteAt rest 4 != 0), 5)
  else if 6 ≤ rest.length ∧ isAxisCode (u16le (byteAt rest 2) (byteAt rest 3)) = true then
    some (.axis (u16le (byteAt rest 0) (byteAt rest 1))
                (u16le (byteAt rest 2) (byteAt rest 3))
                (toI16 (u16le (byteAt rest 4) (byteAt rest 5))), 6)
  else if 4 ≤ rest.length ∧
          (toI16 (u16le (byteAt rest 0) (byteAt rest 1))).natAbs ≤ 1000 ∧
          (toI16 (u16le (byteAt rest 2) (byteAt rest 3))).natAbs ≤ 1000 then
    some (.mouseMove (toI16 (u16le (byteAt rest 0) (byteAt rest 1)))
                     (toI16 (u16le (byteAt rest 2) (byteAt rest 3))), 4)
  else if 3 ≤ rest.length ∧
          (u16le (byteAt rest 0) (byteAt rest 1) = CTRL_MOUSE_LEFT ∨
           u16le (byteAt rest 0) (byteAt rest 1) = CTRL_MOUSE_RIGHT ∨
           u16le (byteAt rest 0) (byteAt rest 1) = CTRL_MOUSE_MIDDLE) then
    some (.mouseButton (u16le (byteAt rest 0) (byteAt rest 1)) (byteAt rest 2 != 0), 3)
  else if 4 ≤ rest.length ∧
          (toI16 (u16le (byteAt rest 0) (byteAt rest 1)) ≠ 0 ∨
           toI16 (u16le (byteAt rest 2) (byteAt rest 3)) ≠ 0) ∧
          (toI16 (u16le (byteAt rest 0) (byteAt rest 1))).natAbs ≤ 100 ∧
          (toI16 (u16le (byteAt rest 2) (byteAt rest 3))).natAbs ≤ 100 then
    some (.mouseScroll (toI16 (u16le (byteAt rest 0) (byteAt rest 1)))
                       (toI16 (u16le (byteAt rest 2) (byteAt rest 3))), 4)
  else none

/-- The dispatch the source performs for a recognized sub-event: the
matching `_handle_*` on the exact slice (`payload[offset:offset+k]` is
`rest.take k`). -/
def batchDispatch (s : EngineState) (addr : Addr) (sid : Nat) (rest : List Nat)
    (ev : BatchEvent) : Effects :=
  match ev with
  | .button _ _ _ => handle_button s (rest.take 5) addr sid
  | .axis _ _ _ => handle_axis s (rest.take 6) addr sid
  | .mouseMove _ _ => handle_mouse_move s (rest.take 4) addr sid
  | .mouseButton _ _ => handle_mouse_button s (rest.take 3) addr sid
  | .mouseScroll _ _ => handle_mouse_scroll s (rest.take 4) addr sid

/-- The `for i in range(event_count)` loop of `_handle_batch`, operating
on the remaining suffix of the payload (the source's `offset` never
exceeds `len(payload)`, so `offset >= len(payload)`/`break` is
`rest = []`). Returns the recognized events in order together with the
accumulated dispatch effects; `events_processed` is the length of the
first component. -/
def batchLoop (s : EngineState) (addr : Addr) (sid : Nat) :
    Nat → List Nat → List BatchEvent × Effects
  | 0, _ => ([], effNone)
  | fuel + 1, rest =>
    if rest.length = 0 then ([], effNone)
    else
      match batchClassify rest with
      | some (ev, n) =>
        let eff := batchDispatch s addr sid rest ev
        let r := batchLoop s addr sid fuel (rest.drop n)
        (ev :: r.1, eff ++ r.2)
      | none => batchLoop s addr sid fuel (rest.drop 1)

/-- Body of `_handle_batch` (session check, `event_count` byte, loop). -/
def handle_batchCore (s : EngineState) (payload : List Nat) (addr : Addr) (sid : Nat) :
    Except String (List BatchEvent × Effects) :=
  if acontains s.sessions sid = false then .error "Unknown session"
  else if payload.length < 1 then .error "Invalid BATCH payload"
  else .ok (batchLoop s addr sid (byteAt payload 0) (payload.drop 1))

/-- `_handle_batch` with its logging `except` clause. -/
def handle_batch (s : EngineState) (payload : List Nat) (addr : Addr) (sid : Nat) :
    Effects :=
  match handle_batchCore s payload addr sid with
  | .ok r => r.2
  | .error _ => effNone

/-! ## Session-lifecycle handlers -/

/-- The `Session(...)` record built by `_handle_hello`. -/
def mkSession (sid : Nat) (addr : Addr) (now caps : Nat) (name : List Nat) : Session :=
  ⟨sid, addr, none, 0, [], now, caps, name⟩

/-- `_handle_hello` (lines 243-287). Parse failures (including a name
that is not valid UTF-8) raise inside the handler's `try` and are
answered with ERROR(`InvalidMessage`) addressed with session id 0;
all raises occur before any state mutation. -/
def handle_hello (s : EngineState) (payload : List Nat) (addr : Addr) (seq now : Nat) :
    EngineState × Effects :=
  if payload.length < 4 then
    (s, effFrame (mkErrorFrame addr 0 "InvalidMessage" "Invalid HELLO payload"))
  else
    let caps_len := u16le (byteAt payload 0) (byteAt payload 1)
    if payload.length < 2 + caps_len + 1 then
      (s, effFrame (mkErrorFrame addr 0 "InvalidMessage" "Invalid HELLO payload length"))
    else
      let caps := if 0 < caps_len then byteAt payload 2 else 0
      let offset := 2 + caps_len
      let name_len := byteAt payload offset
      if payload.length < offset + 1 + name_len then
        (s, effFrame (mkErrorFrame addr 0 "InvalidMessage" "Invalid HELLO client name length"))
      else
        let nameBytes := seg payload (offset + 1) (offset + 1 + name_len)
        if validUtf8 nameBytes then
          let sid := s.nextSessionId
          ({ s with sessions := ainsert s.sessions sid (mkSession sid addr now caps nameBytes),
                    addrToSession := ainsert s.addrToSession addr sid,
                    nextSessionId := sid + 1 },
           effFrame (mkWelcomeFrame addr sid seq))
        else (s, effFrame (mkErrorFrame addr 0 "InvalidMessage" "utf-8 decode error"))

/-- `_handle_connect` (lines 293-322): parse and schedule the
asynchronous acquisition; no synchronous state change. Failures are
answered with ERROR(`ConnectFailed`). -/
def handle_connect (s : EngineState) (payload : List Nat) (addr : Addr) (sid : Nat) :
    Effects :=
  if acontains s.sessions sid = false then
    effFrame (mkErrorFrame addr sid "ConnectFailed" "Unknown session")
  else if payload.length < 2 then
    effFrame (mkErrorFrame addr sid "ConnectFailed" "Invalid CONNECT payload")
  else
    let type_len := byteAt payload 0
    if payload.length < 1 + type_len + 1 then
      effFrame (mkErrorFrame addr sid "ConnectFailed" "Invalid CONNECT payload")
    else
      let dtype := seg payload 1 (1 + type_len)
      if validUtf8 dtype then
        let offset := 1 + type_len
        let name_len := byteAt payload offset
        if 0 < name_len then
          let dname := seg payload (offset + 1) (offset + 1 + name_len)
          if validUtf8 dname then effConnect ⟨sid, dtype, dname, addr⟩
          else effFrame (mkErrorFrame addr sid "ConnectFailed" "utf-8 decode error")
        else effConnect ⟨sid, dtype, dtype, addr⟩
      else effFrame (mkErrorFrame addr sid "ConnectFailed" "utf-8 decode error")

/-- `_handle_disconnect` (lines 344-360): if the session exists and has
a bound device (and a registry and a nonempty recorded type), schedule
one registry release of the recorded type and clear the device
reference; `device_type` is retained. No reply in any case. -/
def handle_disconnect (s : EngineState) (sid : Nat) : EngineState × Effects :=
  match alookup s.sessions sid with
  | none => (s, effNone)
  | some sess =>
    if sess.device.isSome = true ∧ s.hasRegistry = true ∧ sess.deviceType ≠ [] then
      ({ s with sessions := aupdate s.sessions sid (fun x => { x with device := none }) },
       effRelease sess.deviceType)
    else (s, effNone)

/-- `_handle_session_end` (lines 673-693): schedule a release when a
device is bound, then delete the session entry and the address-map entry
for the datagram's source address. (The source guards the address-map
deletion with `if addr in ...`; erasing an absent key is the identity,
so the guard is dropped.) No reply. -/
def handle_session_end (s : EngineState) (addr : Addr) (sid : Nat) :
    EngineState × Effects :=
  match alookup s.sessions sid with
  | none => (s, effNone)
  | some sess =>
    let rel := if sess.device.isSome = true ∧ s.hasRegistry = true ∧ sess.deviceType ≠ []
               then effRelease sess.deviceType else effNone
    ({ s with sessions := aerase s.sessions sid,
              addrToSession := aerase s.addrToSession addr }, rel)

/-- `_async_connect_device` (lines 324-342), modelled as the completion
of the scheduled task: `result` is the registry's answer to
`acquire(device_type, display_name)` (`some dev` on success, `none` when
the acquisition raised). The task holds the session object, so the
STATUS/ERROR frame is sent even if the session has been removed from the
table meanwhile; in that case the field mutation hits an unreachable
object, i.e. the table is unchanged. -/
def async_connect_device (s : EngineState) (sid : Nat) (dtype _dname : List Nat)
    (addr : Addr) (result : Option DeviceCaps) : EngineState × Effects :=
  if s.hasRegistry = false then
    (s, effFrame (mkErrorFrame addr sid "ConnectFailed" "Device registry not available"))
  else
    match result with
    | some dev =>
      ({ s with sessions := aupdate s.sessions sid
                  (fun x => { x with device := some dev, deviceType := dtype, deviceId := 0 }) },
       effFrame (mkStatusFrame addr sid 0x0001 "device connected"))
    | none => (s, effFrame (mkErrorFrame addr sid "ConnectFailed" "acquire failed"))

/-! ## Dispatch and receive loop -/

/-- `_dispatch_message` (lines 209-237), branch order as in the source.
`MSG_KEY_EVENT`/`MSG_TEXT_INPUT` have no branch and fall through to
ERROR(`UnknownMessage`). -/
def dispatch_message (s : EngineState) (msgType : Nat) (payload : List Nat)
    (addr : Addr) (sid seq flags now : Nat) : EngineState × Effects :=
  if msgType = MSG_HELLO then handle_hello s payload addr seq now
  else if msgType = MSG_PING then (s, effFrame (mkPongFrame addr sid seq flags))
  else if msgType = MSG_CONNECT then (s, handle_connect s payload addr sid)
  else if msgType = MSG_DISCONNECT then handle_disconnect s sid
  else if msgType = MSG_BUTTON then (s, handle_button s payload addr sid)
  else if msgType = MSG_AXIS then (s, handle_axis s payload addr sid)
  else if msgType = MSG_MOUSE_MOVE then (s, handle_mouse_move s payload addr sid)
  else if msgType = MSG_MOUSE_BUTTON then (s, handle_mouse_button s payload addr sid)
  else if msgType = MSG_MOUSE_SCROLL then (s, handle_mouse_scroll s payload addr sid)
  else if msgType = MSG_BATCH then (s, handle_batch s payload addr sid)
  else if msgType = MSG_SESSION_END then handle_session_end s addr sid
  else (s, effFrame (mkErrorFrame addr sid "UnknownMessage" "Message type not supported"))

/-- The `last_seen` update of `datagram_received` line 193. -/
def touch (s : EngineState) (sid now : Nat) : EngineState :=
  { s with sessions := aupdate s.sessions sid (fun x => { x with lastSeen := now }) }

/-- `datagram_received` (lines 172-207). Packets under 12 bytes are
dropped; a version mismatch is answered with ERROR(`UnsupportedVersion`)
addressed with session id 0 before any state is touched. The one
exception that can reach the outer `except` on the modelled paths is the
`KeyError` of the `last_seen` update when the address map points at a
session id absent from the session table; it is converted to
ERROR(`InternalError`) with no state change, as the outer clause does. -/
def datagram_received (s : EngineState) (data : List Nat) (addr : Addr) (now : Nat) :
    EngineState × Effects :=
  if data.length < 12 then (s, effNone)
  else
    let version := byteAt data 0
    let msgType := byteAt data 1
    let flags := u16le (byteAt data 2) (byteAt data 3)
    let sid := u32le (byteAt data 4) (byteAt data 5) (byteAt data 6) (byteAt data 7)
    let seq := u32le (byteAt data 8) (byteAt data 9) (byteAt data 10) (byteAt data 11)
    if version ≠ PROTOCOL_VERSION then
      (s, effFrame (mkErrorFrame addr 0 "UnsupportedVersion" "Protocol version not supported"))
    else
      let payload := data.drop (if flags.testBit 1 then 20 else 12)
      if acontains s.addrToSession addr then
        if acontains s.sessions (alookupD s.addrToSession addr 0) then
          dispatch_message (touch s (alookupD s.addrToSession addr 0) now)
            msgType payload addr sid seq flags now
        else (s, effFrame (mkErrorFrame addr 0 "InternalError" "KeyError"))
      else dispatch_message s msgType payload addr sid seq flags now

/-- One engine-level operation: an inbound datagram, or the completion of
a CONNECT acquisition task (the single-threaded event loop interleaves
these atomically). -/
inductive EngOp where
  | dgram (data : List Nat) (addr : Addr) (now : Nat)
  | taskConnect (sid : Nat) (deviceType displayName : List Nat) (addr : Addr)
      (result : Option DeviceCaps)

/-- One engine step. -/
def stepEng (s : EngineState) : EngOp → EngineState × Effects
  | .dgram data addr now => datagram_received s data addr now
  | .taskConnect sid dtype dname addr result =>
    async_connect_device s sid dtype dname addr result

/-- Run a sequence of operations, keeping only the final state. -/
def runEng (s : EngineState) : List EngOp → EngineState
  | [] => s
  | op :: ops => runEng (stepEng s op).1 ops

/-- Run a sequence of operations, accumulating effects. -/
def runEngEff (s : EngineState) : List EngOp → EngineState × Effects
  | [] => (s, effNone)
  | op :: ops =>
    let r := stepEng s op
    let rest := runEngEff r.1 ops
    (rest.1, r.2 ++ rest.2)

/-- The session ids assigned along a run, in order: `next_session_id` is
incremented exactly when `_handle_hello` creates a session, and the
created session receives the old counter value. -/
def createdIds (s : EngineState) : List EngOp → List Nat
  | [] => []
  | op :: ops =>
    let s' := (stepEng s op).1
    (if s'.nextSessionId = s.nextSessionId then [] else [s.nextSessionId]) ++
      createdIds s' ops

/-- A HELLO payload that parses in `_handle_hello` (all length checks
pass and the client name is valid UTF-8). -/
def wellFormedHello (payload : List Nat) : Bool :=
  decide (4 ≤ payload.length) &&
  (let caps_len := u16le (byteAt payload 0) (byteAt payload 1)
   decide (2 + caps_len + 1 ≤ payload.length) &&
   (let offset := 2 + caps_len
    let name_len := byteAt payload offset
    decide (offset + 1 + name_len ≤ payload.length) &&
    validUtf8 (seg payload (offset + 1) (offset + 1 + name_len))))

/-- The session keys currently in the table. -/
def sessionKeys (s : EngineState) : List Nat := akeys s.sessions

/-- The address-to-session-id map is a bijection over the active
sessions: every address entry refers to a session present in the table,
and every active session is referenced by exactly one address entry. -/
def addrMapBijective (s : EngineState) : Bool :=
  s.addrToSession.all (fun p => acontains s.sessions p.2) &&
  s.sessions.all (fun q => (s.addrToSession.filter (fun p => p.2 == q.1)).length == 1)

/-- Trace restriction under which the bijection invariant is preserved:
every HELLO originates from an address with no current map entry, and
every SESSION_END for a live session originates from the address mapped
to that session. (Datagrams that are dropped, version-mismatched or of
any other type are unrestricted.) -/
def goodStep (s : EngineState) (op : EngOp) : Bool :=
  match op with
  | .taskConnect _ _ _ _ _ => true
  | .dgram data addr _ =>
    if data.length < 12 then true
    else if byteAt data 0 ≠ PROTOCOL_VERSION then true
    else
      let msgType := byteAt data 1
      let sid := u32le (byteAt data 4) (byteAt data 5) (byteAt data 6) (byteAt data 7)
      if msgType = MSG_HELLO then (alookup s.addrToSession addr).isNone
      else if msgType = MSG_SESSION_END then
        !(acontains s.sessions sid) || (alookup s.addrToSession addr == some sid)
      else true

/-- `goodStep` holding along an entire run. -/
def goodTrace (s : EngineState) : List EngOp → Bool
  | [] => true
  | op :: ops => goodStep s op && goodTrace (stepEng s op).1 ops

/-! ## Spec-side batch decoder

`specBatchStep`/`specBatchDecode` are written from the WORDS of spec
§4.3 (the five numbered rules, in their stated priority order, plus the
one-byte lossy resynchronization), independently of the source's control
flow, to be compared with `batchClassify`/`batchLoop` above. -/

/-- One decode attempt at an offset, per spec §4.3: (1) 5 bytes as
BUTTON if the control code resolves to kind button; (2) else 6 bytes as
AXIS if it resolves to kind axis; (3) else 4 bytes as MOUSE_MOVE if both
deltas lie within ±1000; (4) else 3 bytes as MOUSE_BUTTON if the code is
literally one of the three mouse-button codes; (5) else 4 bytes as
MOUSE_SCROLL if at least one value is nonzero and both lie within ±100;
else no rule validates. -/
def specBatchStep : List Nat → Option (BatchEvent × Nat)
  | b0 :: b1 :: b2 :: b3 :: b4 :: b5 :: _ =>
    if isButtonCode (u16le b2 b3) then
      some (.button (u16le b0 b1) (u16le b2 b3) (b4 != 0), 5)
    else if isAxisCode (u16le b2 b3) then
      some (.axis (u16le b0 b1) (u16le b2 b3) (toI16 (u16le b4 b5)), 6)
    else if (toI16 (u16le b0 b1)).natAbs ≤ 1000 ∧ (toI16 (u16le b2 b3)).natAbs ≤ 1000 then
      some (.mouseMove (toI16 (u16le b0 b1)) (toI16 (u16le b2 b3)), 4)
    else if u16le b0 b1 = CTRL_MOUSE_LEFT ∨ u16le b0 b1 = CTRL_MOUSE_RIGHT ∨
            u16le b0 b1 = CTRL_MOUSE_MIDDLE then
      some (.mouseButton (u16le b0 b1) (b2 != 0), 3)
    else if (toI16 (u16le b0 b1) ≠ 0 ∨ toI16 (u16le b2 b3) ≠ 0) ∧
            (toI16 (u16le b0 b1)).natAbs ≤ 100 ∧ (toI16 (u16le b2 b3)).natAbs ≤ 100 then
      some (.mouseScroll (toI16 (u16le b0 b1)) (toI16 (u16le b2 b3)), 4)
    else none
  | [b0, b1, b2, b3, b4] =>
    if isButtonCode (u16le b2 b3) then
      some (.button (u16le b0 b1) (u16le b2 b3) (b4 != 0), 5)
    else if (toI16 (u16le b0 b1)).natAbs ≤ 1000 ∧ (toI16 (u16le b2 b3)).natAbs ≤ 1000 then
      some (.mouseMove (toI16 (u16le b0 b1)) (toI16 (u16le b2 b3)), 4)
    else if u16le b0 b1 = CTRL_MOUSE_LEFT ∨ u16le b0 b1 = CTRL_MOUSE_RIGHT ∨
            u16le b0 b1 = CTRL_MOUSE_MIDDLE then
      some (.mouseButton (u16le b0 b1) (b2 != 0), 3)
    else if (toI16 (u16le b0 b1) ≠ 0 ∨ toI16 (u16le b2 b3) ≠ 0) ∧
            (toI16 (u16le b0 b1)).natAbs ≤ 100 ∧ (toI16 (u16le b2 b3)).natAbs ≤ 100 then
      some (.mouseScroll (toI16 (u16le b0 b1)) (toI16 (u16le b2 b3)), 4)
    else none
  | [b0, b1, b2, b3] =>
    if (toI16 (u16le b0 b1)).natAbs ≤ 1000 ∧ (toI16 (u16le b2 b3)).natAbs ≤ 1000 then
      some (.mouseMove (toI16 (u16le b0 b1)) (toI16 (u16le b2 b3)), 4)
    else if u16le b0 b1 = CTRL_MOUSE_LEFT ∨ u16le b0 b1 = CTRL_MOUSE_RIGHT ∨
            u16le b0 b1 = CTRL_MOUSE_MIDDLE then
      some (.mouseButton (u16le b0 b1) (b2 != 0), 3)
    else if (toI16 (u16le b0 b1) ≠ 0 ∨ toI16 (u16le b2 b3) ≠ 0) ∧
            (toI16 (u16le b0 b1)).natAbs ≤ 100 ∧ (toI16 (u16le b2 b3)).natAbs ≤ 100 then
      some (.mouseScroll (toI16 (u16le b0 b1)) (toI16 (u16le b2 b3)), 4)
    else none
  | [b0, b1, b2] =>
    if u16le b0 b1 = CTRL_MOUSE_LEFT ∨ u16le b0 b1 = CTRL_MOUSE_RIGHT ∨
       u16le b0 b1 = CTRL_MOUSE_MIDDLE then
      some (.mouseButton (u16le b0 b1) (b2 != 0), 3)
    else none
  | _ => none

/-- The decode loop per spec §4.3: at most `event_count` iterations; at
each offset the first validating interpretation is applied and decoding
advances by its size; if none validates exactly one byte is discarded. -/
def specBatchDecode : Nat → List Nat → List BatchEvent
  | 0, _ => []
  | fuel + 1, rest =>
    if rest.length = 0 then []
    else
      match specBatchStep rest with
      | some (ev, n) => ev :: specBatchDecode fuel (rest.drop n)
      | none => specBatchDecode fuel (rest.drop 1)

/-! ## Device Registry (`device_registry.py`) -/

/-- A registry operation: the body of `acquire`/`release` runs under one
process-wide lock, so a trace of atomic operations models every
interleaving of the concurrent coroutines. -/
inductive RegOp where
  | acquire (name : String)
  | release (name : String)

/-- Observable registry lifecycle events: a constructor invocation, a
`close()` invocation, or the `KeyError` raised for an unknown type. -/
inductive RegEvent where
  | construct (key : String)
  | close (key : String)
  | errUnknownType (name : String)
deriving DecidableEq, Repr

/-- `DeviceRegistry` state: `_instances` maps a lowercase type key to a
live instance (identified by a creation stamp), `_client_counts` to its
refcount. -/
structure RegState where
  instances : List (String × Nat)
  clientCounts : List (String × Int)
  nextInst : Nat
deriving DecidableEq, Repr

/-- `name.lower()` as applied to registry keys (ASCII case folding over
the character list; the constructor keys are ASCII, so this matches
Python's `str.lower` on every input that can resolve to one). -/
def pyLower (s : String) : String := String.mk (s.data.map Char.toLower)

/-- The constructor set resolved at startup (Linux: standard, mouse). -/
def regConstructors : List String := ["standard", "mouse"]

/-- `DeviceRegistry.__init__`. -/
def regInit : RegState := ⟨[], [], 0⟩

/-- One registry operation (`acquire` lines 65-91, `release` lines
93-109). `acquire`: lowercase the name, raise for an unknown type,
lazily construct (refcount initialized to 0), then increment.
`release`: no-op without a live instance; otherwise decrement floored at
0; at 0 pop the instance, delete its count and invoke `close()`. -/
def regStep (s : RegState) : RegOp → RegState × List RegEvent
  | .acquire name =>
    let key := (pyLower name)
    if regConstructors.contains key = false then (s, [.errUnknownType name])
    else
      let created :=
        if acontains s.instances key then (s, ([] : List RegEvent))
        else ({ s with instances := ainsert s.instances key s.nextInst,
                       clientCounts := ainsert s.clientCounts key 0,
                       nextInst := s.nextInst + 1 }, [.construct key])
      ({ created.1 with
         clientCounts := aupdate created.1.clientCounts key (fun c => c + 1) },
       created.2)
  | .release name =>
    let key := (pyLower name)
    if acontains s.instances key = false then (s, [])
    else
      if max 0 (alookupD s.clientCounts key 0 - 1) = 0 then
        ({ s with instances := aerase s.instances key,
                  clientCounts := aerase s.clientCounts key }, [.close key])
      else
        ({ s with clientCounts := aupdate s.clientCounts key (fun c => max 0 (c - 1)) }, [])

/-- Run a sequence of registry operations, keeping the final state. -/
def regRun (s : RegState) : List RegOp → RegState
  | [] => s
  | op :: ops => regRun (regStep s op).1 ops

/-- The refcount of a type key (0 when no entry exists). -/
def regCount (s : RegState) (key : String) : Int := alookupD s.clientCounts key 0

/-- Is a live instance present for a type key? -/
def regLive (s : RegState) (key : String) : Bool := acontains s.instances key

/-- The 12-byte common header as laid out by `struct.pack('<BBHII', ...)`
in `_send_message` and parsed by `datagram_received`: version, message
type, flags = 0, session id, sequence number (little-endian). -/
def mkHeader (msgType sid seq : Nat) : List Nat :=
  [PROTOCOL_VERSION, msgType, 0, 0] ++ u32bytes sid ++ u32bytes seq

/-! ## Invariant predicates -/

/-- Registry data invariant: instance keys are unique (at most one live
instance per type), the instance table and the refcount table have the
same keys, and every stored refcount is at least 1. -/
def RegInv (s : RegState) : Prop :=
  (akeys s.instances).Nodup ∧
  akeys s.instances = akeys s.clientCounts ∧
  ∀ k v, alookup s.clientCounts k = some v → 1 ≤ v

/-- Engine data invariant: the id counter never drops below its initial
value 1000, session keys are unique, and every active session id lies in
`[1000, nextSessionId)` — so a freshly assigned id never collides with
an active one. -/
def EngInv (s : EngineState) : Prop :=
  1000 ≤ s.nextSessionId ∧
  (akeys s.sessions).Nodup ∧
  ∀ id ∈ akeys s.sessions, 1000 ≤ id ∧ id < s.nextSessionId

/-- Strong form of the address-map bijection: the value list of the
address map coincides (as a list) with the key list of the session
table, and address-map keys are unique. -/
def AddrBij (s : EngineState) : Prop :=
  s.addrToSession.map Prod.snd = akeys s.sessions ∧
  (akeys s.addrToSession).Nodup

/-! ## Helper lemmas: association lists -/

section AListLemmas

variable {α : Type} {β : Type} [DecidableEq α]

theorem alookup_cons (k : α) (v : β) (t : List (α × β)) (a : α) :
    alookup ((k, v) :: t) a = if k = a then some v else alookup t a := rfl

theorem aupdate_cons (k : α) (v : β) (t : List (α × β)) (a : α) (f : β → β) :
    aupdate ((k, v) :: t) a f =
      (if k = a then (k, f v) else (k, v)) :: aupdate t a f := rfl

theorem aerase_cons (k : α) (v : β) (t : List (α × β)) (a : α) :
    aerase ((k, v) :: t) a = if k = a then aerase t a else (k, v) :: aerase t a := by
  simp only [aerase, List.filter_cons]
  by_cases h : k = a <;> simp [h]

theorem alookup_eq_none_iff (l : List (α × β)) (a : α) :
    alookup l a = none ↔ a ∉ akeys l := by
  induction l with
  | nil => simp [alookup, akeys]
  | cons p t ih =>
    obtain ⟨k, v⟩ := p
    rw [alookup_cons]
    by_cases h : k = a
    · subst h
      simp [akeys]
    · simp only [if_neg h, akeys, List.map_cons, List.mem_cons, ih]
      constructor
      · rintro hm hor
        rcases hor with h1 | h2
        · exact h h1.symm
        · exact hm h2
      · intro hm h2
        exact hm (Or.inr h2)

theorem acontains_iff_mem (l : List (α × β)) (a : α) :
    acontains l a = true ↔ a ∈ akeys l := by
  rw [acontains, Option.isSome_iff_ne_none, ne_eq, alookup_eq_none_iff]
  simp

theorem acontains_false_iff (l : List (α × β)) (a : α) :
    acontains l a = false ↔ alookup l a = none := by
  unfold acontains
  cases h : alookup l a <;> simp

theorem alookup_mem (l : List (α × β)) (a : α) (b : β) (h : alookup l a = some b) :
    (a, b) ∈ l := by
  induction l with
  | nil => simp [alookup] at h
  | cons p t ih =>
    obtain ⟨k, v⟩ := p
    rw [alookup_cons] at h
    by_cases hk : k = a
    · rw [if_pos hk] at h
      subst hk
      obtain rfl : v = b := by simpa using h
      simp
    · rw [if_neg hk] at h
      simp [ih h]

theorem alookup_isSome_of_eq_some (l : List (α × β)) (a : α) (b : β)
    (h : alookup l a = some b) : acontains l a = true := by
  rw [acontains, h]
  rfl

theorem akeys_aupdate (l : List (α × β)) (a : α) (f : β → β) :
    akeys (aupdate l a f) = akeys l := by
  induction l with
  | nil => rfl
  | cons p t ih =>
    obtain ⟨k, v⟩ := p
    rw [aupdate_cons]
    by_cases h : k = a
    · simp only [if_pos h, akeys, List.map_cons] at *
      simp [ih]
    · simp only [if_neg h, akeys, List.map_cons] at *
      simp [ih]

theorem alookup_aupdate (l : List (α × β)) (a : α) (f : β → β) (b : α) :
    alookup (aupdate l a f) b =
      if b = a then (alookup l a).map f else alookup l b := by
  induction l with
  | nil => by_cases h : b = a <;> simp [aupdate, alookup, h]
  | cons p t ih =>
    obtain ⟨k, v⟩ := p
    rw [aupdate_cons]
    by_cases hk : k = a <;> by_cases hkb : k = b
    · subst hk
      subst hkb
      simp [alookup_cons]
    · subst hk
      have hba : ¬b = k := fun hh => hkb hh.symm
      simp [alookup_cons, hkb, hba, ih]
    · subst hkb
      simp [alookup_cons, hk]
    · simp only [if_neg hk, alookup_cons, if_neg hkb, ih]

theorem akeys_ainsert_of_contains (l : List (α × β)) (a : α) (v : β)
    (h : acontains l a = true) : akeys (ainsert l a v) = akeys l := by
  unfold ainsert
  rw [if_pos h]
  simp only [akeys, List.map_map]
  apply List.map_congr_left
  intro p _
  by_cases hp : p.1 = a <;> simp [hp]

theorem ainsert_of_not_contains (l : List (α × β)) (a : α) (v : β)
    (h : acontains l a = false) : ainsert l a v = l ++ [(a, v)] := by
  unfold ainsert
  rw [if_neg (by simp [h])]

theorem akeys_ainsert_of_not_contains (l : List (α × β)) (a : α) (v : β)
    (h : acontains l a = false) : akeys (ainsert l a v) = akeys l ++ [a] := by
  rw [ainsert_of_not_contains l a v h]
  simp [akeys]

theorem alookup_append_right (l l' : List (α × β)) (a : α)
    (h : alookup l a = none) : alookup (l ++ l') a = alookup l' a := by
  induction l with
  | nil => simp
  | cons p t ih =>
    obtain ⟨k, v⟩ := p
    rw [alookup_cons] at h
    by_cases hk : k = a
    · rw [if_pos hk] at h
      exact absurd h (by simp)
    · rw [if_neg hk] at h
      rw [List.cons_append, alookup_cons, if_neg hk]
      exact ih h

theorem alookup_map_replace (l : List (α × β)) (a : α) (v : β)
    (h : acontains l a = true) :
    alookup (l.map (fun p => if p.1 = a then (a, v) else p)) a = some v := by
  induction l with
  | nil => simp [acontains, alookup] at h
  | cons p t ih =>
    obtain ⟨k, w⟩ := p
    by_cases hk : k = a
    · subst hk
      simp [alookup_cons]
    · simp only [List.map_cons, if_neg hk]
      rw [alookup_cons, if_neg hk]
      rw [acontains, alookup_cons, if_neg hk] at h
      exact ih h

theorem alookup_ainsert_self (l : List (α × β)) (a : α) (v : β) :
    alookup (ainsert l a v) a = some v := by
  by_cases h : acontains l a
  · unfold ainsert
    rw [if_pos h]
    exact alookup_map_replace l a v h
  · have hF : acontains l a = false := by simpa using h
    rw [ainsert_of_not_contains l a v hF,
        alookup_append_right _ _ _ ((acontains_false_iff l a).1 hF)]
    simp [alookup_cons]

theorem alookup_append_left (l l' : List (α × β)) (b : α) (w : β)
    (h : alookup l b = some w) : alookup (l ++ l') b = some w := by
  induction l with
  | nil => simp [alookup] at h
  | cons p t ih =>
    obtain ⟨k, v⟩ := p
    rw [alookup_cons] at h
    rw [List.cons_append, alookup_cons]
    by_cases hk : k = b
    · rwa [if_pos hk] at h ⊢
    · rw [if_neg hk] at h ⊢
      exact ih h

theorem alookup_map_replace_ne (l : List (α × β)) (a : α) (v : β) (b : α)
    (h : b ≠ a) :
    alookup (l.map (fun p => if p.1 = a then (a, v) else p)) b = alookup l b := by
  induction l with
  | nil => rfl
  | cons p t ih =>
    obtain ⟨k, w⟩ := p
    by_cases hk : k = a
    · subst hk
      have hkb : ¬k = b := fun hh => h hh.symm
      simp [alookup_cons, hkb, ih]
    · simp only [List.map_cons, if_neg hk]
      rw [alookup_cons, alookup_cons]
      by_cases hkb : k = b
      · rw [if_pos hkb, if_pos hkb]
      · rw [if_neg hkb, if_neg hkb]
        exact ih

theorem alookup_ainsert_of_ne (l : List (α × β)) (a : α) (v : β) (b : α)
    (h : b ≠ a) : alookup (ainsert l a v) b = alookup l b := by
  by_cases hc : acontains l a
  · unfold ainsert
    rw [if_pos hc]
    exact alookup_map_replace_ne l a v b h
  · have hF : acontains l a = false := by simpa using hc
    rw [ainsert_of_not_contains l a v hF]
    cases hlb : alookup l b with
    | none =>
      rw [alookup_append_right l _ b hlb, alookup_cons, if_neg (fun hh => h hh.symm)]
      rfl
    | some w => exact alookup_append_left l _ b w hlb

theorem aerase_sublist (l : List (α × β)) (a : α) : (aerase l a).Sublist l :=
  List.filter_sublist l

theorem akeys_aerase (l : List (α × β)) (a : α) :
    akeys (aerase l a) = (akeys l).filter (fun k => decide (k ≠ a)) := by
  induction l with
  | nil => rfl
  | cons p t ih =>
    obtain ⟨k, v⟩ := p
    rw [aerase_cons]
    by_cases hk : k = a
    · rw [if_pos hk]
      simpa [akeys, List.filter_cons, hk] using ih
    · rw [if_neg hk]
      simpa [akeys, List.filter_cons, hk] using ih

theorem alookup_aerase_self (l : List (α × β)) (a : α) :
    alookup (aerase l a) a = none := by
  rw [alookup_eq_none_iff, akeys_aerase]
  simp

theorem akeys_aerase_sublist (l : List (α × β)) (a : α) :
    (akeys (aerase l a)).Sublist (akeys l) :=
  List.Sublist.map Prod.fst (aerase_sublist l a)

theorem aerase_of_not_mem (l : List (α × β)) (a : α) (h : a ∉ akeys l) :
    aerase l a = l := by
  induction l with
  | nil => rfl
  | cons p t ih =>
    obtain ⟨k, v⟩ := p
    simp only [akeys, List.map_cons, List.mem_cons] at h
    push_neg at h
    rw [aerase_cons, if_neg (fun hk => h.1 hk.symm)]
    rw [ih (by simpa [akeys] using h.2)]

theorem alookup_aerase_of_ne (l : List (α × β)) (a b : α) (h : b ≠ a) :
    alookup (aerase l a) b = alookup l b := by
  induction l with
  | nil => rfl
  | cons p t ih =>
    obtain ⟨k, v⟩ := p
    rw [aerase_cons]
    by_cases hk : k = a
    · rw [if_pos hk, alookup_cons, if_neg (fun hb : k = b => h (hb ▸ hk ▸ rfl))]
      exact ih
    · rw [if_neg hk, alookup_cons, alookup_cons]
      by_cases hb : k = b
      · simp [hb]
      · rw [if_neg hb, if_neg hb]
        exact ih

end AListLemmas

/-! ## Helper lemmas: bytes and headers -/

theorem byteAt_cons_zero (a : Nat) (l : List Nat) : byteAt (a :: l) 0 = a := rfl

theorem byteAt_cons_succ (a : Nat) (l : List Nat) (n : Nat) :
    byteAt (a :: l) (n + 1) = byteAt l n := rfl

theorem byteAt_append_left (l l' : List Nat) (i : Nat) (h : i < l.length) :
    byteAt (l ++ l') i = byteAt l i := by
  unfold byteAt
  rw [List.getD_eq_getElem?_getD, List.getD_eq_getElem?_getD,
      List.getElem?_append_left h]

theorem take_append_of_length (l l' : List Nat) (n : Nat) (h : l.length = n) :
    (l ++ l').take n = l := by
  subst h
  exact List.take_left l l'

theorem drop_append_of_length (l l' : List Nat) (n : Nat) (h : l.length = n) :
    (l ++ l').drop n = l' := by
  subst h
  exact List.drop_left l l'

theorem mkHeader_length (msgType sid seq : Nat) : (mkHeader msgType sid seq).length = 12 := rfl

theorem u32le_u32bytes (n : Nat) (h : n < 4294967296) :
    u32le (n % 256) (n / 256 % 256) (n / 65536 % 256) (n / 16777216 % 256) = n := by
  unfold u32le
  omega

/-! ## Helper lemmas: handlers -/

theorem isButtonCode_eq_true_iff (c : Nat) :
    isButtonCode c = true ↔ ∃ n, control_code_map c = some (.button, n) := by
  unfold isButtonCode
  cases h : control_code_map c with
  | none => simp
  | some kn =>
    obtain ⟨k, n⟩ := kn
    cases k <;> simp

theorem isAxisCode_eq_true_iff (c : Nat) :
    isAxisCode c = true ↔ ∃ n, control_code_map c = some (.axis, n) := by
  unfold isAxisCode
  cases h : control_code_map c with
  | none => simp
  | some kn =>
    obtain ⟨k, n⟩ := kn
    cases k <;> simp

theorem handle_button_unknown_code (s : EngineState) (payload : List Nat)
    (addr : Addr) (sid : Nat)
    (hb : isButtonCode (u16le (byteAt payload 2) (byteAt payload 3)) = false) :
    handle_button s payload addr sid = effNone := by
  cases hsess : alookup s.sessions sid with
  | none => simp [handle_button, handle_buttonCore, hsess]
  | some sess =>
    cases hdev : sess.device with
    | none => simp [handle_button, handle_buttonCore, hsess, hdev]
    | some dev =>
      by_cases hl : payload.length < 5
      · simp [handle_button, handle_buttonCore, hsess, hdev, hl]
      · cases hmap : control_code_map (u16le (byteAt payload 2) (byteAt payload 3)) with
        | none => simp [handle_button, handle_buttonCore, hsess, hdev, hl, hmap]
        | some kn =>
          obtain ⟨k, n⟩ := kn
          cases k with
          | button =>
            rw [isButtonCode, hmap] at hb
            exact absurd hb (by simp)
          | axis => simp [handle_button, handle_buttonCore, hsess, hdev, hl, hmap]

theorem handle_axis_unknown_code (s : EngineState) (payload : List Nat)
    (addr : Addr) (sid : Nat)
    (ha : isAxisCode (u16le (byteAt payload 2) (byteAt payload 3)) = false) :
    handle_axis s payload addr sid = effNone := by
  cases hsess : alookup s.sessions sid with
  | none => simp [handle_axis, handle_axisCore, hsess]
  | some sess =>
    cases hdev : sess.device with
    | none => simp [handle_axis, handle_axisCore, hsess, hdev]
    | some dev =>
      by_cases hl : payload.length < 6
      · simp [handle_axis, handle_axisCore, hsess, hdev, hl]
      · cases hmap : control_code_map (u16le (byteAt payload 2) (byteAt payload 3)) with
        | none => simp [handle_axis, handle_axisCore, hsess, hdev, hl, hmap]
        | some kn =>
          obtain ⟨k, n⟩ := kn
          cases k with
          | button => simp [handle_axis, handle_axisCore, hsess, hdev, hl, hmap]
          | axis =>
            rw [isAxisCode, hmap] at ha
            exact absurd ha (by simp)

theorem batchClassify_eq_specBatchStep (rest : List Nat) :
    batchClassify rest = specBatchStep rest := by
  match rest with
  | [] => rfl
  | [b0] => rfl
  | [b0, b1] => rfl
  | [b0, b1, b2] =>
    simp only [batchClassify, specBatchStep, byteAt, List.getD_cons_zero,
      List.getD_cons_succ]
    norm_num
  | [b0, b1, b2, b3] =>
    simp only [batchClassify, specBatchStep, byteAt, List.getD_cons_zero,
      List.getD_cons_succ]
    norm_num
  | [b0, b1, b2, b3, b4] =>
    simp only [batchClassify, specBatchStep, byteAt, List.getD_cons_zero,
      List.getD_cons_succ]
    norm_num
  | b0 :: b1 :: b2 :: b3 :: b4 :: b5 :: tail =>
    simp only [batchClassify, specBatchStep, byteAt, List.getD_cons_zero,
      List.getD_cons_succ]
    norm_num

theorem batchLoop_events_spec (s : EngineState) (addr : Addr) (sid : Nat) :
    ∀ (count : Nat) (rest : List Nat),
      (batchLoop s addr sid count rest).1 = specBatchDecode count rest ∧
      (batchLoop s addr sid count rest).1.length ≤ count := by
  intro count
  induction count with
  | zero => intro rest; exact ⟨rfl, Nat.le_refl 0⟩
  | succ n ih =>
    intro rest
    by_cases h0 : rest.length = 0
    · constructor
      · simp [batchLoop, specBatchDecode, h0]
      · simp [batchLoop, h0]
    · have hcl := batchClassify_eq_specBatchStep rest
      constructor
      · simp only [batchLoop, specBatchDecode, if_neg h0, hcl]
        cases hc : specBatchStep rest with
        | none => exact (ih _).1
        | some p =>
          obtain ⟨ev, k⟩ := p
          simp [(ih _).1]
      · simp only [batchLoop, if_neg h0, hcl]
        cases hc : specBatchStep rest with
        | none => exact le_trans (ih _).2 (Nat.le_succ n)
        | some p =>
          obtain ⟨ev, k⟩ := p
          simp [Nat.succ_le_succ (ih _).2]

/-! ## Helper lemmas: registry -/

theorem regStep_acquire_invalid (s : RegState) (name : String)
    (h : regConstructors.contains (pyLower name) = false) :
    regStep s (.acquire name) = (s, [.errUnknownType name]) := by
  simp only [regStep]
  rw [if_pos h]

theorem regStep_acquire_live (s : RegState) (name : String)
    (hv : regConstructors.contains (pyLower name) = true)
    (hl : acontains s.instances (pyLower name) = true) :
    regStep s (.acquire name) =
      ({ s with clientCounts :=
          aupdate s.clientCounts (pyLower name) (fun c => c + 1) }, []) := by
  simp only [regStep]
  rw [if_neg (by rw [hv]; simp), if_pos hl]

theorem regStep_acquire_new (s : RegState) (name : String)
    (hv : regConstructors.contains (pyLower name) = true)
    (hl : acontains s.instances (pyLower name) = false) :
    regStep s (.acquire name) =
      ({ s with
          instances := ainsert s.instances (pyLower name) s.nextInst,
          clientCounts := aupdate (ainsert s.clientCounts (pyLower name) 0)
            (pyLower name) (fun c => c + 1),
          nextInst := s.nextInst + 1 }, [.construct (pyLower name)]) := by
  simp only [regStep]
  rw [if_neg (by rw [hv]; simp), if_neg (by rw [hl]; simp)]

theorem regStep_release_dead (s : RegState) (name : String)
    (hl : acontains s.instances (pyLower name) = false) :
    regStep s (.release name) = (s, []) := by
  simp only [regStep]
  rw [if_pos hl]

theorem regStep_release_last (s : RegState) (name : String)
    (hl : acontains s.instances (pyLower name) = true)
    (hz : max 0 (alookupD s.clientCounts (pyLower name) 0 - 1) = 0) :
    regStep s (.release name) =
      ({ s with instances := aerase s.instances (pyLower name),
                clientCounts := aerase s.clientCounts (pyLower name) },
       [.close (pyLower name)]) := by
  simp only [regStep]
  rw [if_neg (by rw [hl]; simp), if_pos hz]

theorem regStep_release_dec (s : RegState) (name : String)
    (hl : acontains s.instances (pyLower name) = true)
    (hz : ¬max 0 (alookupD s.clientCounts (pyLower name) 0 - 1) = 0) :
    regStep s (.release name) =
      ({ s with clientCounts :=
          aupdate s.clientCounts (pyLower name) (fun c => max 0 (c - 1)) }, []) := by
  simp only [regStep]
  rw [if_neg (by rw [hl]; simp), if_neg hz]

theorem regInv_init : RegInv regInit := by
  refine ⟨List.nodup_nil, rfl, ?_⟩
  intro k v h
  simp [regInit, alookup] at h

theorem regLive_some_count (s : RegState) (h : RegInv s) (k : String)
    (hl : regLive s k = true) :
    ∃ w, alookup s.clientCounts k = some w ∧ 1 ≤ w ∧ regCount s k = w := by
  obtain ⟨_, h2, h3⟩ := h
  have hm : k ∈ akeys s.clientCounts := by
    rw [← h2]
    exact (acontains_iff_mem _ _).1 hl
  cases ho : alookup s.clientCounts k with
  | none => exact absurd ((alookup_eq_none_iff _ _).1 ho) (by simp [hm])
  | some w =>
    exact ⟨w, rfl, h3 k w ho, by simp [regCount, alookupD, ho]⟩

theorem regCount_zero_of_not_live (s : RegState) (h : RegInv s) (k : String)
    (hl : regLive s k = false) : regCount s k = 0 := by
  obtain ⟨_, h2, _⟩ := h
  have hm : k ∉ akeys s.clientCounts := by
    rw [← h2]
    intro hmem
    rw [← acontains_iff_mem] at hmem
    rw [regLive] at hl
    rw [hl] at hmem
    cases hmem
  rw [regCount, alookupD, (alookup_eq_none_iff _ _).2 hm]
  rfl

theorem regInv_step (s : RegState) (op : RegOp) (h : RegInv s) :
    RegInv (regStep s op).1 := by
  obtain ⟨h1, h2, h3⟩ := h
  cases op with
  | acquire name =>
    by_cases hv : regConstructors.contains (pyLower name)
    · by_cases hl : acontains s.instances (pyLower name)
      · rw [regStep_acquire_live s name hv hl]
        refine ⟨h1, by simpa [akeys_aupdate] using h2, ?_⟩
        intro k v hk
        rw [alookup_aupdate] at hk
        by_cases hkk : k = (pyLower name)
        · rw [if_pos hkk] at hk
          cases ho : alookup s.clientCounts (pyLower name) with
          | none => rw [ho] at hk; cases hk
          | some w =>
            rw [ho] at hk
            obtain rfl : w + 1 = v := by simpa using hk
            have := h3 (pyLower name) w ho
            omega
        · rw [if_neg hkk] at hk
          exact h3 k v hk
      · have hlF : acontains s.instances (pyLower name) = false := by simpa using hl
        have hnm : (pyLower name) ∉ akeys s.instances := by
          intro hmem
          rw [← acontains_iff_mem] at hmem
          rw [hlF] at hmem
          cases hmem
        have hcF : acontains s.clientCounts (pyLower name) = false := by
          rw [acontains_false_iff, alookup_eq_none_iff, ← h2]
          exact hnm
        rw [regStep_acquire_new s name hv hlF]
        refine ⟨?_, ?_, ?_⟩
        · rw [akeys_ainsert_of_not_contains _ _ _ hlF]
          refine List.Nodup.append h1 (List.nodup_singleton _) ?_
          intro x hx hx'
          simp only [List.mem_singleton] at hx'
          subst hx'
          exact hnm hx
        · rw [akeys_ainsert_of_not_contains _ _ _ hlF, akeys_aupdate,
              akeys_ainsert_of_not_contains _ _ _ hcF, h2]
        · intro k v hk
          rw [alookup_aupdate] at hk
          by_cases hkk : k = (pyLower name)
          · rw [if_pos hkk, alookup_ainsert_self] at hk
            obtain rfl : (0 : Int) + 1 = v := by simpa using hk
            omega
          · rw [if_neg hkk, alookup_ainsert_of_ne _ _ _ _ hkk] at hk
            exact h3 k v hk
    · have hvF : regConstructors.contains (pyLower name) = false := by simpa using hv
      rw [regStep_acquire_invalid s name hvF]
      exact ⟨h1, h2, h3⟩
  | release name =>
    by_cases hl : acontains s.instances (pyLower name)
    · by_cases hz : max 0 (alookupD s.clientCounts (pyLower name) 0 - 1) = 0
      · rw [regStep_release_last s name hl hz]
        refine ⟨?_, ?_, ?_⟩
        · rw [akeys_aerase]
          exact h1.filter _
        · rw [akeys_aerase, akeys_aerase, h2]
        · intro k v hk
          by_cases hkk : k = (pyLower name)
          · rw [hkk, alookup_aerase_self] at hk
            cases hk
          · rw [alookup_aerase_of_ne _ _ _ hkk] at hk
            exact h3 k v hk
      · rw [regStep_release_dec s name hl hz]
        refine ⟨h1, by simpa [akeys_aupdate] using h2, ?_⟩
        intro k v hk
        rw [alookup_aupdate] at hk
        by_cases hkk : k = (pyLower name)
        · rw [if_pos hkk] at hk
          cases ho : alookup s.clientCounts (pyLower name) with
          | none => rw [ho] at hk; cases hk
          | some w =>
            rw [ho] at hk
            obtain rfl : max 0 (w - 1) = v := by simpa using hk
            have hD : alookupD s.clientCounts (pyLower name) 0 = w := by
              simp [alookupD, ho]
            rw [hD] at hz
            omega
        · rw [if_neg hkk] at hk
          exact h3 k v hk
    · have hlF : acontains s.instances (pyLower name) = false := by simpa using hl
      rw [regStep_release_dead s name hlF]
      exact ⟨h1, h2, h3⟩

theorem regInv_run : ∀ (ops : List RegOp) (s : RegState), RegInv s → RegInv (regRun s ops) := by
  intro ops
  induction ops with
  | nil => intro s h; exact h
  | cons op t ih =>
    intro s h
    exact ih _ (regInv_step s op h)

/-! ## Helper lemmas: engine state shape -/

theorem touch_next (s : EngineState) (sid now : Nat) :
    (touch s sid now).nextSessionId = s.nextSessionId := rfl

theorem touch_addrMap (s : EngineState) (sid now : Nat) :
    (touch s sid now).addrToSession = s.addrToSession := rfl

theorem touch_sessionKeys (s : EngineState) (sid now : Nat) :
    akeys (touch s sid now).sessions = akeys s.sessions := by
  show akeys (aupdate s.sessions sid (fun x => { x with lastSeen := now })) = _
  exact akeys_aupdate _ _ _

theorem handle_disconnect_next (s : EngineState) (sid : Nat) :
    (handle_disconnect s sid).1.nextSessionId = s.nextSessionId := by
  cases ho : alookup s.sessions sid with
  | none => simp [handle_disconnect, ho]
  | some sess =>
    simp only [handle_disconnect, ho]
    split_ifs <;> rfl

theorem handle_disconnect_sessionKeys (s : EngineState) (sid : Nat) :
    akeys (handle_disconnect s sid).1.sessions = akeys s.sessions := by
  cases ho : alookup s.sessions sid with
  | none => simp [handle_disconnect, ho]
  | some sess =>
    simp only [handle_disconnect, ho]
    split_ifs
    · show akeys (aupdate s.sessions sid (fun x => { x with device := none })) = _
      exact akeys_aupdate _ _ _
    · rfl

theorem handle_disconnect_addrMap (s : EngineState) (sid : Nat) :
    (handle_disconnect s sid).1.addrToSession = s.addrToSession := by
  cases ho : alookup s.sessions sid with
  | none => simp [handle_disconnect, ho]
  | some sess =>
    simp only [handle_disconnect, ho]
    split_ifs <;> rfl

theorem async_connect_next (s : EngineState) (sid : Nat) (dt dn : List Nat)
    (addr : Addr) (res : Option DeviceCaps) :
    (async_connect_device s sid dt dn addr res).1.nextSessionId = s.nextSessionId := by
  unfold async_connect_device
  split_ifs
  · rfl
  · cases res <;> rfl

theorem async_connect_sessionKeys (s : EngineState) (sid : Nat) (dt dn : List Nat)
    (addr : Addr) (res : Option DeviceCaps) :
    akeys (async_connect_device s sid dt dn addr res).1.sessions = akeys s.sessions := by
  unfold async_connect_device
  split_ifs
  · rfl
  · cases res with
    | none => rfl
    | some dev =>
      show akeys (aupdate s.sessions sid
        (fun x => { x with device := some dev, deviceType := dt, deviceId := 0 })) = _
      exact akeys_aupdate _ _ _

theorem async_connect_addrMap (s : EngineState) (sid : Nat) (dt dn : List Nat)
    (addr : Addr) (res : Option DeviceCaps) :
    (async_connect_device s sid dt dn addr res).1.addrToSession = s.addrToSession := by
  unfold async_connect_device
  split_ifs
  · rfl
  · cases res <;> rfl

theorem handle_hello_success (s : EngineState) (p : List Nat) (addr : Addr)
    (q n : Nat) (h : wellFormedHello p = true) :
    handle_hello s p addr q n =
      ({ s with
          sessions := ainsert s.sessions s.nextSessionId
            (mkSession s.nextSessionId addr n
              (if 0 < u16le (byteAt p 0) (byteAt p 1) then byteAt p 2 else 0)
              (seg p (2 + u16le (byteAt p 0) (byteAt p 1) + 1)
                 (2 + u16le (byteAt p 0) (byteAt p 1) + 1 +
                   byteAt p (2 + u16le (byteAt p 0) (byteAt p 1))))),
          addrToSession := ainsert s.addrToSession addr s.nextSessionId,
          nextSessionId := s.nextSessionId + 1 },
       effFrame (mkWelcomeFrame addr s.nextSessionId q)) := by
  simp only [wellFormedHello, Bool.and_eq_true, decide_eq_true_eq] at h
  obtain ⟨hl1, hl2, hl3, hutf⟩ := h
  unfold handle_hello
  rw [if_neg (by omega), if_neg (by omega), if_neg (by omega), if_pos hutf]

theorem handle_hello_failure (s : EngineState) (p : List Nat) (a : Addr) (q n : Nat)
    (h : wellFormedHello p = false) : (handle_hello s p a q n).1 = s := by
  unfold handle_hello
  by_cases c1 : p.length < 4
  · rw [if_pos c1]
  · rw [if_neg c1]
    by_cases c2 : p.length < 2 + u16le (byteAt p 0) (byteAt p 1) + 1
    · rw [if_pos c2]
    · rw [if_neg c2]
      by_cases c3 : p.length <
          2 + u16le (byteAt p 0) (byteAt p 1) + 1 +
            byteAt p (2 + u16le (byteAt p 0) (byteAt p 1))
      · rw [if_pos c3]
      · rw [if_neg c3]
        by_cases c4 : validUtf8 (seg p (2 + u16le (byteAt p 0) (byteAt p 1) + 1)
            (2 + u16le (byteAt p 0) (byteAt p 1) + 1 +
              byteAt p (2 + u16le (byteAt p 0) (byteAt p 1)))) = true
        · exact absurd (show wellFormedHello p = true by
            simp only [wellFormedHello, Bool.and_eq_true, decide_eq_true_eq]
            exact ⟨by omega, by omega, by omega, c4⟩) (by simp [h])
        · rw [if_neg c4]

theorem next_handle_hello (s : EngineState) (p : List Nat) (a : Addr) (q n : Nat) :
    (handle_hello s p a q n).1.nextSessionId = s.nextSessionId ∨
    (handle_hello s p a q n).1.nextSessionId = s.nextSessionId + 1 := by
  by_cases hw : wellFormedHello p = true
  · right
    rw [handle_hello_success s p a q n hw]
  · left
    rw [handle_hello_failure s p a q n (by simpa using hw)]

theorem handle_session_end_next (s : EngineState) (a : Addr) (sid : Nat) :
    (handle_session_end s a sid).1.nextSessionId = s.nextSessionId := by
  cases ho : alookup s.sessions sid with
  | none => simp [handle_session_end, ho]
  | some sess => simp [handle_session_end, ho]

theorem next_dispatch (s : EngineState) (m : Nat) (p : List Nat) (a : Addr)
    (sid seq fl now : Nat) :
    (dispatch_message s m p a sid seq fl now).1.nextSessionId = s.nextSessionId ∨
    (dispatch_message s m p a sid seq fl now).1.nextSessionId = s.nextSessionId + 1 := by
  unfold dispatch_message
  split_ifs
  · exact next_handle_hello s p a seq now
  · left; rfl
  · left; rfl
  · left; exact handle_disconnect_next s sid
  · left; rfl
  · left; rfl
  · left; rfl
  · left; rfl
  · left; rfl
  · left; rfl
  · left; exact handle_session_end_next s a sid
  · left; rfl

theorem next_dispatch_touch (s : EngineState) (tid tnow m : Nat) (p : List Nat)
    (a : Addr) (sid seq fl now : Nat) :
    (dispatch_message (touch s tid tnow) m p a sid seq fl now).1.nextSessionId =
        s.nextSessionId ∨
    (dispatch_message (touch s tid tnow) m p a sid seq fl now).1.nextSessionId =
        s.nextSessionId + 1 := by
  have hd := next_dispatch (touch s tid tnow) m p a sid seq fl now
  rwa [touch_next] at hd

theorem next_stepEng (s : EngineState) (op : EngOp) :
    (stepEng s op).1.nextSessionId = s.nextSessionId ∨
    (stepEng s op).1.nextSessionId = s.nextSessionId + 1 := by
  cases op with
  | taskConnect sid dt dn addr res =>
    left
    exact async_connect_next s sid dt dn addr res
  | dgram data addr now =>
    show (datagram_received s data addr now).1.nextSessionId = s.nextSessionId ∨
      (datagram_received s data addr now).1.nextSessionId = s.nextSessionId + 1
    simp only [datagram_received]
    by_cases h12 : data.length < 12
    · rw [if_pos h12]; left; rfl
    · rw [if_neg h12]
      by_cases hv : byteAt data 0 ≠ PROTOCOL_VERSION
      · rw [if_pos hv]; left; rfl
      · rw [if_neg hv]
        by_cases hA : acontains s.addrToSession addr
        · rw [if_pos hA]
          by_cases hc : acontains s.sessions (alookupD s.addrToSession addr 0)
          · rw [if_pos hc]
            exact next_dispatch_touch s _ now _ _ addr _ _ _ now
          · rw [if_neg hc]
            left
            rfl
        · rw [if_neg hA]
          exact next_dispatch s _ _ addr _ _ _ now

theorem createdIds_eq_range (ops : List EngOp) :
    ∀ s : EngineState,
      createdIds s ops = List.range' s.nextSessionId (createdIds s ops).length := by
  induction ops with
  | nil => intro s; rfl
  | cons op t ih =>
    intro s
    rcases next_stepEng s op with h | h
    · simp only [createdIds, if_pos h, List.nil_append]
      conv_lhs => rw [ih ((stepEng s op).1)]
      rw [h]
    · have hne : (stepEng s op).1.nextSessionId ≠ s.nextSessionId := by omega
      simp only [createdIds, if_neg hne]
      conv_lhs => rw [ih ((stepEng s op).1)]
      rw [h]
      simp [List.range'_succ]

theorem runEng_next (ops : List EngOp) :
    ∀ s : EngineState,
      (runEng s ops).nextSessionId = s.nextSessionId + (createdIds s ops).length := by
  induction ops with
  | nil => intro s; rfl
  | cons op t ih =>
    intro s
    rcases next_stepEng s op with h | h
    · show (runEng (stepEng s op).1 t).nextSessionId = _
      rw [ih ((stepEng s op).1), h]
      simp only [createdIds, if_pos h, List.nil_append]
    · have hne : (stepEng s op).1.nextSessionId ≠ s.nextSessionId := by omega
      show (runEng (stepEng s op).1 t).nextSessionId = _
      rw [ih ((stepEng s op).1), h]
      simp only [createdIds, if_neg hne]
      simp [List.length_cons]
      omega

/-! ## Helper lemmas: engine invariant -/

theorem engInv_touch (s : EngineState) (sid now : Nat) (h : EngInv s) :
    EngInv (touch s sid now) := by
  obtain ⟨h1, h2, h3⟩ := h
  exact ⟨h1, by rwa [touch_sessionKeys], by rw [touch_sessionKeys, touch_next]; exact h3⟩

theorem engInv_fresh (s : EngineState) (h : EngInv s) :
    acontains s.sessions s.nextSessionId = false := by
  obtain ⟨_, _, h3⟩ := h
  rw [acontains_false_iff, alookup_eq_none_iff]
  intro hm
  exact absurd (h3 _ hm).2 (by omega)

theorem engInv_handle_hello (s : EngineState) (p : List Nat) (a : Addr) (q n : Nat)
    (h : EngInv s) : EngInv (handle_hello s p a q n).1 := by
  by_cases hw : wellFormedHello p = true
  · rw [handle_hello_success s p a q n hw]
    obtain ⟨h1, h2, h3⟩ := h
    have hfresh := engInv_fresh s ⟨h1, h2, h3⟩
    refine ⟨?_, ?_, ?_⟩
    · show 1000 ≤ s.nextSessionId + 1
      omega
    · show (akeys (ainsert s.sessions s.nextSessionId _)).Nodup
      rw [akeys_ainsert_of_not_contains _ _ _ hfresh]
      refine List.Nodup.append h2 (List.nodup_singleton _) ?_
      intro x hx hx'
      simp only [List.mem_singleton] at hx'
      subst hx'
      exact absurd (h3 _ hx).2 (by omega)
    · intro id hid
      replace hid : id ∈ akeys (ainsert s.sessions s.nextSessionId _) := hid
      rw [akeys_ainsert_of_not_contains _ _ _ hfresh] at hid
      show 1000 ≤ id ∧ id < s.nextSessionId + 1
      rcases List.mem_append.1 hid with hold | hnew
      · obtain ⟨hb1, hb2⟩ := h3 id hold
        exact ⟨hb1, by omega⟩
      · simp only [List.mem_singleton] at hnew
        subst hnew
        exact ⟨h1, by omega⟩
  · rw [handle_hello_failure s p a q n (by simpa using hw)]
    exact h

theorem engInv_handle_session_end (s : EngineState) (a : Addr) (sid : Nat)
    (h : EngInv s) : EngInv (handle_session_end s a sid).1 := by
  obtain ⟨h1, h2, h3⟩ := h
  cases ho : alookup s.sessions sid with
  | none => simpa [handle_session_end, ho] using ⟨h1, h2, h3⟩
  | some sess =>
    simp only [handle_session_end, ho]
    refine ⟨h1, ?_, ?_⟩
    · exact (akeys_aerase_sublist s.sessions sid).nodup h2
    · intro id hid
      exact h3 id ((akeys_aerase_sublist s.sessions sid).mem hid)

theorem engInv_handle_disconnect (s : EngineState) (sid : Nat)
    (h : EngInv s) : EngInv (handle_disconnect s sid).1 := by
  obtain ⟨h1, h2, h3⟩ := h
  refine ⟨?_, ?_, ?_⟩
  · rw [handle_disconnect_next]; exact h1
  · rw [handle_disconnect_sessionKeys]; exact h2
  · rw [handle_disconnect_sessionKeys, handle_disconnect_next]; exact h3

theorem engInv_async_connect (s : EngineState) (sid : Nat) (dt dn : List Nat)
    (addr : Addr) (res : Option DeviceCaps) (h : EngInv s) :
    EngInv (async_connect_device s sid dt dn addr res).1 := by
  obtain ⟨h1, h2, h3⟩ := h
  refine ⟨?_, ?_, ?_⟩
  · rw [async_connect_next]; exact h1
  · rw [async_connect_sessionKeys]; exact h2
  · rw [async_connect_sessionKeys, async_connect_next]; exact h3

theorem engInv_dispatch (s : EngineState) (m : Nat) (p : List Nat) (a : Addr)
    (sid seq fl now : Nat) (h : EngInv s) :
    EngInv (dispatch_message s m p a sid seq fl now).1 := by
  unfold dispatch_message
  split_ifs
  · exact engInv_handle_hello s p a seq now h
  · exact h
  · exact h
  · exact engInv_handle_disconnect s sid h
  · exact h
  · exact h
  · exact h
  · exact h
  · exact h
  · exact h
  · exact engInv_handle_session_end s a sid h
  · exact h

theorem engInv_stepEng (s : EngineState) (op : EngOp) (h : EngInv s) :
    EngInv (stepEng s op).1 := by
  cases op with
  | taskConnect sid dt dn addr res => exact engInv_async_connect s sid dt dn addr res h
  | dgram data addr now =>
    show EngInv (datagram_received s data addr now).1
    simp only [datagram_received]
    by_cases h12 : data.length < 12
    · rw [if_pos h12]; exact h
    · rw [if_neg h12]
      by_cases hv : byteAt data 0 ≠ PROTOCOL_VERSION
      · rw [if_pos hv]; exact h
      · rw [if_neg hv]
        by_cases hA : acontains s.addrToSession addr
        · rw [if_pos hA]
          by_cases hc : acontains s.sessions (alookupD s.addrToSession addr 0)
          · rw [if_pos hc]
            exact engInv_dispatch (touch s (alookupD s.addrToSession addr 0) now)
              _ _ addr _ _ _ now (engInv_touch s (alookupD s.addrToSession addr 0) now h)
          · rw [if_neg hc]
            exact h
        · rw [if_neg hA]
          exact engInv_dispatch s _ _ addr _ _ _ now h

theorem engInv_init (hr : Bool) : EngInv (initState hr) := by
  refine ⟨by norm_num [initState], by simp [initState, akeys], ?_⟩
  intro id hid
  simp [initState, akeys] at hid

theorem engInv_runEng (ops : List EngOp) :
    ∀ s : EngineState, EngInv s → EngInv (runEng s ops) := by
  induction ops with
  | nil => intro s h; exact h
  | cons op t ih =>
    intro s h
    exact ih _ (engInv_stepEng s op h)

/-! ## Helper lemmas: address-map bijection -/

theorem acontains_touch (s : EngineState) (t now k : Nat) :
    acontains (touch s t now).sessions k = acontains s.sessions k := by
  show acontains (aupdate s.sessions t (fun x => { x with lastSeen := now })) k = _
  rw [acontains, acontains, alookup_aupdate]
  by_cases hk : k = t
  · rw [if_pos hk, hk]
    cases ho : alookup s.sessions t <;> simp [ho]
  · rw [if_neg hk]

theorem corr_erase {α γ β : Type} [DecidableEq α] [DecidableEq γ]
    (l1 : List (α × γ)) (l2 : List (γ × β)) (a : α) (c : γ)
    (hcorr : l1.map Prod.snd = l2.map Prod.fst)
    (hnd2 : (l2.map Prod.fst).Nodup)
    (hnd1 : (l1.map Prod.fst).Nodup)
    (hlk : alookup l1 a = some c) :
    (aerase l1 a).map Prod.snd = (aerase l2 c).map Prod.fst := by
  induction l1 generalizing l2 with
  | nil => simp [alookup] at hlk
  | cons p t1 ih =>
    obtain ⟨a', c'⟩ := p
    cases l2 with
    | nil => simp at hcorr
    | cons q t2 =>
      obtain ⟨k, v⟩ := q
      simp only [List.map_cons, List.cons.injEq] at hcorr
      obtain ⟨hk, hcorr'⟩ := hcorr
      subst hk
      rw [alookup_cons] at hlk
      rw [aerase_cons, aerase_cons]
      simp only [List.map_cons] at hnd2 hnd1
      by_cases ha : a' = a
      · rw [if_pos ha] at hlk ⊢
        obtain rfl : c = c' := by simpa using hlk.symm
        rw [if_pos rfl]
        have h1 : aerase t1 a = t1 := by
          apply aerase_of_not_mem
          intro hm
          exact (List.nodup_cons.1 hnd1).1 (ha ▸ hm)
        have h2 : aerase t2 c = t2 := by
          apply aerase_of_not_mem
          intro hm
          exact (List.nodup_cons.1 hnd2).1 hm
        rw [h1, h2]
        exact hcorr'
      · rw [if_neg ha] at hlk ⊢
        have hcm : c ∈ t1.map Prod.snd :=
          List.mem_map_of_mem Prod.snd (alookup_mem t1 a c hlk)
        rw [hcorr'] at hcm
        have hne : ¬c' = c := fun he => (List.nodup_cons.1 hnd2).1 (he ▸ hcm)
        rw [if_neg hne]
        simp only [List.map_cons]
        rw [ih t2 hcorr' (List.nodup_cons.1 hnd2).2 (List.nodup_cons.1 hnd1).2 hlk]

theorem addrBij_touch (s : EngineState) (sid now : Nat) (h : AddrBij s) :
    AddrBij (touch s sid now) :=
  ⟨by rw [touch_addrMap, touch_sessionKeys]; exact h.1,
   by rw [touch_addrMap]; exact h.2⟩

theorem addrBij_handle_disconnect (s : EngineState) (sid : Nat) (h : AddrBij s) :
    AddrBij (handle_disconnect s sid).1 :=
  ⟨by rw [handle_disconnect_addrMap, handle_disconnect_sessionKeys]; exact h.1,
   by rw [handle_disconnect_addrMap]; exact h.2⟩

theorem addrBij_async_connect (s : EngineState) (sid : Nat) (dt dn : List Nat)
    (addr : Addr) (res : Option DeviceCaps) (h : AddrBij s) :
    AddrBij (async_connect_device s sid dt dn addr res).1 :=
  ⟨by rw [async_connect_addrMap, async_connect_sessionKeys]; exact h.1,
   by rw [async_connect_addrMap]; exact h.2⟩

theorem addrBij_handle_hello_good (s : EngineState) (p : List Nat) (a : Addr)
    (q n : Nat) (hInv : EngInv s) (hB : AddrBij s)
    (hfreshAddr : alookup s.addrToSession a = none) :
    AddrBij (handle_hello s p a q n).1 := by
  by_cases hw : wellFormedHello p = true
  · rw [handle_hello_success s p a q n hw]
    obtain ⟨hb1, hb2⟩ := hB
    have hAc : acontains s.addrToSession a = false :=
      (acontains_false_iff _ _).2 hfreshAddr
    have hfresh := engInv_fresh s hInv
    constructor
    · show (ainsert s.addrToSession a s.nextSessionId).map Prod.snd =
        akeys (ainsert s.sessions s.nextSessionId _)
      rw [ainsert_of_not_contains _ _ _ hAc,
          akeys_ainsert_of_not_contains _ _ _ hfresh, List.map_append, hb1]
      rfl
    · show (akeys (ainsert s.addrToSession a s.nextSessionId)).Nodup
      rw [akeys_ainsert_of_not_contains _ _ _ hAc]
      refine List.Nodup.append hb2 (List.nodup_singleton _) ?_
      intro x hx hx'
      simp only [List.mem_singleton] at hx'
      subst hx'
      rw [← acontains_iff_mem] at hx
      rw [hAc] at hx
      cases hx
  · rw [handle_hello_failure s p a q n (by simpa using hw)]
    exact hB

theorem addrBij_handle_session_end_good (s : EngineState) (a : Addr) (sid : Nat)
    (hInv : EngInv s) (hB : AddrBij s)
    (hgood : acontains s.sessions sid = true → alookup s.addrToSession a = some sid) :
    AddrBij (handle_session_end s a sid).1 := by
  cases ho : alookup s.sessions sid with
  | none =>
    simp only [handle_session_end, ho]
    exact hB
  | some sess =>
    have hc : acontains s.sessions sid = true := alookup_isSome_of_eq_some _ _ _ ho
    have hlk := hgood hc
    obtain ⟨hb1, hb2⟩ := hB
    obtain ⟨_, hnd, _⟩ := hInv
    simp only [handle_session_end, ho]
    constructor
    · show (aerase s.addrToSession a).map Prod.snd = akeys (aerase s.sessions sid)
      exact corr_erase s.addrToSession s.sessions a sid hb1 hnd hb2 hlk
    · show (akeys (aerase s.addrToSession a)).Nodup
      exact (akeys_aerase_sublist _ _).nodup hb2

theorem addrBij_dispatch (s : EngineState) (m : Nat) (p : List Nat) (a : Addr)
    (sid seq fl now : Nat) (hInv : EngInv s) (hB : AddrBij s)
    (hHello : m = MSG_HELLO → alookup s.addrToSession a = none)
    (hEnd : m = MSG_SESSION_END → acontains s.sessions sid = true →
      alookup s.addrToSession a = some sid) :
    AddrBij (dispatch_message s m p a sid seq fl now).1 := by
  unfold dispatch_message
  split_ifs with h1 h2 h3 h4 h5 h6 h7 h8 h9 h10 h11
  · exact addrBij_handle_hello_good s p a seq now hInv hB (hHello h1)
  · exact hB
  · exact hB
  · exact addrBij_handle_disconnect s sid hB
  · exact hB
  · exact hB
  · exact hB
  · exact hB
  · exact hB
  · exact hB
  · exact addrBij_handle_session_end_good s a sid hInv hB (hEnd h11)
  · exact hB

theorem addrBij_stepEng (s : EngineState) (op : EngOp) (hInv : EngInv s)
    (hB : AddrBij s) (hg : goodStep s op = true) : AddrBij (stepEng s op).1 := by
  cases op with
  | taskConnect sid dt dn addr res => exact addrBij_async_connect s sid dt dn addr res hB
  | dgram data addr now =>
    show AddrBij (datagram_received s data addr now).1
    simp only [datagram_received]
    simp only [goodStep] at hg
    by_cases h12 : data.length < 12
    · rw [if_pos h12]
      exact hB
    · rw [if_neg h12] at hg ⊢
      by_cases hv : byteAt data 0 ≠ PROTOCOL_VERSION
      · rw [if_pos hv]
        exact hB
      · rw [if_neg hv] at hg ⊢
        by_cases hA : acontains s.addrToSession addr
        · rw [if_pos hA]
          by_cases hc : acontains s.sessions (alookupD s.addrToSession addr 0)
          · rw [if_pos hc]
            refine addrBij_dispatch _ _ _ addr _ _ _ now
              (engInv_touch s _ now hInv) (addrBij_touch s _ now hB) ?_ ?_
            · intro hm
              rw [if_pos hm] at hg
              rw [acontains] at hA
              rw [Option.isNone_iff_eq_none] at hg
              rw [hg] at hA
              cases hA
            · intro hm hcont
              rw [if_neg (by rw [hm]; decide), if_pos hm] at hg
              rw [touch_addrMap]
              rw [acontains_touch] at hcont
              rw [hcont] at hg
              simpa using hg
          · rw [if_neg hc]
            exact hB
        · rw [if_neg hA]
          refine addrBij_dispatch s _ _ addr _ _ _ now hInv hB ?_ ?_
          · intro _
            exact (acontains_false_iff _ _).1 (by simpa using hA)
          · intro hm hcont
            rw [if_neg (by rw [hm]; decide), if_pos hm] at hg
            rw [hcont] at hg
            have hnone : alookup s.addrToSession addr = none :=
              (acontains_false_iff _ _).1 (by simpa using hA)
            rw [hnone] at hg
            simp at hg

theorem addrBij_goodTrace (ops : List EngOp) :
    ∀ s : EngineState, EngInv s → AddrBij s → goodTrace s ops = true →
      AddrBij (runEng s ops) := by
  induction ops with
  | nil => intro s _ hB _; exact hB
  | cons op t ih =>
    intro s hInv hB hg
    rw [goodTrace, Bool.and_eq_true] at hg
    exact ih _ (engInv_stepEng s op hInv) (addrBij_stepEng s op hInv hB hg.1) hg.2

theorem addrMapBijective_of_addrBij (s : EngineState)
    (hnd : (akeys s.sessions).Nodup) (hB : AddrBij s) :
    addrMapBijective s = true := by
  obtain ⟨hb1, hb2⟩ := hB
  rw [addrMapBijective, Bool.and_eq_true, List.all_eq_true, List.all_eq_true]
  constructor
  · intro p hp
    have hm : p.2 ∈ s.addrToSession.map Prod.snd := List.mem_map_of_mem Prod.snd hp
    rw [hb1] at hm
    simpa using (acontains_iff_mem s.sessions p.2).2 hm
  · intro q hq
    have hq1 : q.1 ∈ akeys s.sessions := List.mem_map_of_mem Prod.fst hq
    have hcount : (s.addrToSession.map Prod.snd).count q.1 = 1 := by
      rw [hb1]
      exact List.count_eq_one_of_mem hnd hq1
    have hlen : (s.addrToSession.filter (fun p => p.2 == q.1)).length = 1 := by
      rw [← List.countP_eq_length_filter]
      rw [List.count, List.countP_map] at hcount
      convert hcount using 2
    simp [hlen]

/-! ## Helper lemmas: batch/button equivalence -/

theorem concatEffects_nil : concatEffects [] = effNone := rfl

theorem concatEffects_cons (x : Effects) (l : List Effects) :
    concatEffects (x :: l) = x ++ concatEffects l := rfl

theorem concatEffects_calls (l : List Effects) :
    (concatEffects l).calls = (l.map (fun x => x.calls)).join := by
  induction l with
  | nil => rfl
  | cons x t ih =>
    rw [concatEffects_cons]
    show x.calls ++ (concatEffects t).calls = _
    rw [ih]
    rfl

theorem alookup_touch (s : EngineState) (t now q : Nat) :
    alookup (touch s t now).sessions q =
      if q = t then (alookup s.sessions q).map (fun x => { x with lastSeen := now })
      else alookup s.sessions q := by
  show alookup (aupdate s.sessions t (fun x => { x with lastSeen := now })) q = _
  rw [alookup_aupdate]
  by_cases hq : q = t
  · rw [if_pos hq, if_pos hq, hq]
  · rw [if_neg hq, if_neg hq]

theorem handle_button_touch (s : EngineState) (t now : Nat) (p : List Nat)
    (addr : Addr) (q : Nat) :
    handle_button (touch s t now) p addr q = handle_button s p addr q := by
  have hcore : handle_buttonCore (touch s t now) p q = handle_buttonCore s p q := by
    unfold handle_buttonCore
    rw [alookup_touch]
    by_cases hq : q = t
    · rw [if_pos hq]
      cases ho : alookup s.sessions q with
      | none => rfl
      | some sess => rfl
    · rw [if_neg hq]
  unfold handle_button
  rw [hcore]

theorem aupdate_aupdate {α β : Type} [DecidableEq α] (l : List (α × β)) (a : α)
    (f g : β → β) :
    aupdate (aupdate l a f) a g = aupdate l a (fun x => g (f x)) := by
  induction l with
  | nil => rfl
  | cons p t ih =>
    obtain ⟨k, v⟩ := p
    by_cases hk : k = a
    · rw [aupdate_cons, if_pos hk, aupdate_cons, if_pos hk, aupdate_cons, if_pos hk, ih]
    · rw [aupdate_cons, if_neg hk, aupdate_cons, if_neg hk, aupdate_cons, if_neg hk, ih]

theorem touch_touch (s : EngineState) (t now : Nat) :
    touch (touch s t now) t now = touch s t now := by
  show ({ s with sessions := (aupdate (aupdate s.sessions t (fun x => { x with lastSeen := now })) t (fun x => { x with lastSeen := now })) } : EngineState) = touch s t now
  rw [aupdate_aupdate]
  rfl

theorem mkHeader_append_length (m sid seq : Nat) (p : List Nat) :
    (mkHeader m sid seq ++ p).length = 12 + p.length := by
  rw [List.length_append, mkHeader_length]

/-- Reduction of `datagram_received` on a well-formed input datagram when
the source address is mapped to a live session `sid`: update `last_seen`
and dispatch the payload. -/
theorem datagram_to_dispatch (s : EngineState) (m sidh seqh now : Nat)
    (p : List Nat) (addr : Addr) (sid : Nat)
    (hA : acontains s.addrToSession addr = true)
    (hMap : alookupD s.addrToSession addr 0 = sid)
    (hc : acontains s.sessions sid = true)
    (h32 : sidh < 4294967296) (h32q : seqh < 4294967296) :
    datagram_received s (mkHeader m sidh seqh ++ p) addr now =
      dispatch_message (touch s sid now) m p addr sidh seqh 0 now := by
  have hlen : ¬(mkHeader m sidh seqh ++ p).length < 12 := by
    rw [mkHeader_append_length]
    omega
  have h0 : byteAt (mkHeader m sidh seqh ++ p) 0 = 1 := rfl
  have h1 : byteAt (mkHeader m sidh seqh ++ p) 1 = m := rfl
  have h2 : byteAt (mkHeader m sidh seqh ++ p) 2 = 0 := rfl
  have h3 : byteAt (mkHeader m sidh seqh ++ p) 3 = 0 := rfl
  have hsid : u32le (byteAt (mkHeader m sidh seqh ++ p) 4)
      (byteAt (mkHeader m sidh seqh ++ p) 5) (byteAt (mkHeader m sidh seqh ++ p) 6)
      (byteAt (mkHeader m sidh seqh ++ p) 7) = sidh := by
    show u32le (sidh % 256) (sidh / 256 % 256) (sidh / 65536 % 256)
      (sidh / 16777216 % 256) = sidh
    exact u32le_u32bytes sidh h32
  have hseq : u32le (byteAt (mkHeader m sidh seqh ++ p) 8)
      (byteAt (mkHeader m sidh seqh ++ p) 9) (byteAt (mkHeader m sidh seqh ++ p) 10)
      (byteAt (mkHeader m sidh seqh ++ p) 11) = seqh := by
    show u32le (seqh % 256) (seqh / 256 % 256) (seqh / 65536 % 256)
      (seqh / 16777216 % 256) = seqh
    exact u32le_u32bytes seqh h32q
  have hdrop : (mkHeader m sidh seqh ++ p).drop 12 = p :=
    drop_append_of_length _ _ _ (mkHeader_length m sidh seqh)
  simp only [datagram_received]
  rw [if_neg hlen, h0, h1, h2, h3, hsid, hseq, hMap]
  rw [if_neg (by simp [PROTOCOL_VERSION]), if_pos hA, if_pos hc]
  rw [show u16le 0 0 = 0 from rfl]
  rw [show Nat.testBit 0 1 = false from rfl]
  simp only [Bool.false_eq_true, if_false]
  rw [hdrop]

theorem dispatch_button_eq (s : EngineState) (p : List Nat) (addr : Addr)
    (sidh seqh fl now : Nat) :
    dispatch_message s MSG_BUTTON p addr sidh seqh fl now =
      (s, handle_button s p addr sidh) := by
  unfold dispatch_message
  norm_num [MSG_BUTTON, MSG_HELLO, MSG_PING, MSG_CONNECT, MSG_DISCONNECT]

theorem dispatch_batch_eq (s : EngineState) (p : List Nat) (addr : Addr)
    (sidh seqh fl now : Nat) :
    dispatch_message s MSG_BATCH p addr sidh seqh fl now =
      (s, handle_batch s p addr sidh) := by
  unfold dispatch_message
  norm_num [MSG_BATCH, MSG_HELLO, MSG_PING, MSG_CONNECT, MSG_DISCONNECT,
    MSG_BUTTON, MSG_AXIS, MSG_MOUSE_MOVE, MSG_MOUSE_BUTTON, MSG_MOUSE_SCROLL]

/-- A well-formed BUTTON sub-event: exactly 5 bytes whose control code
resolves to kind button. -/
def wellFormedButtonEvent (e : List Nat) : Prop :=
  e.length = 5 ∧ isButtonCode (u16le (byteAt e 2) (byteAt e 3)) = true

theorem batchClassify_button (e : List Nat) (rest : List Nat)
    (hw : wellFormedButtonEvent e) :
    batchClassify (e ++ rest) =
      some (.button (u16le (byteAt (e ++ rest) 0) (byteAt (e ++ rest) 1))
        (u16le (byteAt (e ++ rest) 2) (byteAt (e ++ rest) 3))
        (byteAt (e ++ rest) 4 != 0), 5) := by
  obtain ⟨hl5, hbc⟩ := hw
  have hb2 : byteAt (e ++ rest) 2 = byteAt e 2 := byteAt_append_left _ _ _ (by omega)
  have hb3 : byteAt (e ++ rest) 3 = byteAt e 3 := byteAt_append_left _ _ _ (by omega)
  unfold batchClassify
  rw [if_pos ⟨by rw [List.length_append]; omega, by rw [hb2, hb3]; exact hbc⟩]

theorem batchLoop_button_join (s : EngineState) (addr : Addr) (sid : Nat) :
    ∀ evs : List (List Nat),
      (∀ e ∈ evs, wellFormedButtonEvent e) →
      (batchLoop s addr sid evs.length evs.join).2 =
        concatEffects (evs.map (fun e => handle_button s e addr sid)) := by
  intro evs
  induction evs with
  | nil => intro _; rfl
  | cons e t ih =>
    intro hwf
    have hwe := hwf e (List.mem_cons_self e t)
    have hrest := fun e' he => hwf e' (List.mem_cons_of_mem _ he)
    obtain ⟨hl5, hbc⟩ := hwe
    show (batchLoop s addr sid (t.length + 1) (e ++ t.join)).2 = _
    have hlen0 : ¬(e ++ t.join).length = 0 := by
      rw [List.length_append]
      omega
    simp only [batchLoop]
    rw [if_neg hlen0, batchClassify_button e t.join ⟨hl5, hbc⟩]
    show (batchDispatch s addr sid (e ++ t.join) _ ++
      (batchLoop s addr sid t.length ((e ++ t.join).drop 5)).2) = _
    rw [drop_append_of_length _ _ _ hl5]
    show (handle_button s ((e ++ t.join).take 5) addr sid ++
      (batchLoop s addr sid t.length t.join).2) = _
    rw [take_append_of_length _ _ _ hl5, ih hrest]
    rfl

theorem handle_button_one_call (s : EngineState) (payload : List Nat) (addr : Addr)
    (sid : Nat) (sess : Session) (dev : DeviceCaps)
    (hs : alookup s.sessions sid = some sess) (hd : sess.device = some dev)
    (hw : wellFormedButtonEvent payload) :
    ∃ nm, handle_button s payload addr sid =
      effCall (.setButton nm (byteAt payload 4 != 0)) := by
  obtain ⟨hl5, hbc⟩ := hw
  obtain ⟨nm, hmap⟩ := (isButtonCode_eq_true_iff _).1 hbc
  refine ⟨nm, ?_⟩
  have hnl : ¬payload.length < 5 := by omega
  simp [handle_button, handle_buttonCore, hs, hd, hnl, hmap]

theorem join_length_of_one {α : Type} (f : List Nat → List α) (evs : List (List Nat))
    (h : ∀ e ∈ evs, (f e).length = 1) :
    ((evs.map f).join).length = evs.length := by
  induction evs with
  | nil => rfl
  | cons e t ih =>
    show ((f e ++ (t.map f).join)).length = t.length + 1
    rw [List.length_append, h e (List.mem_cons_self e t),
        ih (fun e' he => h e' (List.mem_cons_of_mem _ he))]
    omega

theorem runEngEff_buttons (sidh seqh now : Nat) (addr : Addr)
    (h32 : sidh < 4294967296) (h32q : seqh < 4294967296) :
    ∀ (evs : List (List Nat)) (s : EngineState) (sid : Nat),
      acontains s.addrToSession addr = true →
      alookupD s.addrToSession addr 0 = sid →
      acontains s.sessions sid = true →
      (runEngEff s (evs.map (fun e =>
        EngOp.dgram (mkHeader MSG_BUTTON sidh seqh ++ e) addr now))).2.calls =
      (evs.map (fun e => (handle_button s e addr sidh).calls)).join := by
  intro evs
  induction evs with
  | nil => intro s sid _ _ _; rfl
  | cons e t ih =>
    intro s sid hA hMap hc
    have hstep : stepEng s (EngOp.dgram (mkHeader MSG_BUTTON sidh seqh ++ e) addr now) =
        (touch s sid now, handle_button (touch s sid now) e addr sidh) := by
      show datagram_received s (mkHeader MSG_BUTTON sidh seqh ++ e) addr now = _
      rw [datagram_to_dispatch s MSG_BUTTON sidh seqh now e addr sid hA hMap hc h32 h32q,
          dispatch_button_eq]
    show (runEngEff s (EngOp.dgram (mkHeader MSG_BUTTON sidh seqh ++ e) addr now ::
      t.map (fun e => EngOp.dgram (mkHeader MSG_BUTTON sidh seqh ++ e) addr now))).2.calls = _
    simp only [runEngEff]
    rw [hstep]
    show ((handle_button (touch s sid now) e addr sidh).calls ++
      (runEngEff (touch s sid now) (t.map (fun e =>
        EngOp.dgram (mkHeader MSG_BUTTON sidh seqh ++ e) addr now))).2.calls) = _
    rw [handle_button_touch]
    rw [ih (touch s sid now) sid (by rw [touch_addrMap]; exact hA)
        (by rw [touch_addrMap]; exact hMap) (by rw [acontains_touch]; exact hc)]
    have hmapped : (t.map (fun e => (handle_button (touch s sid now) e addr sidh).calls)) =
        (t.map (fun e => (handle_button s e addr sidh).calls)) := by
      apply List.map_congr_left
      intro e' _
      rw [handle_button_touch]
    rw [hmapped]
    rfl

/-! ## Claim theorems -/

/-- C1: for every BATCH payload, the handler reads `event_count` from
the first byte and runs the decode loop over the remaining bytes; the
loop recognizes at most `event_count` events, and the recognized event
sequence equals, for every count and byte sequence, the spec-worded
decoder `specBatchDecode`: at each offset the first of the five
priority-ordered interpretations (BUTTON 5B if button-kind code at
offset+2; AXIS 6B if axis-kind; MOUSE_MOVE 4B if both deltas within
±1000; MOUSE_BUTTON 3B if literally a mouse-button code; MOUSE_SCROLL
4B if some value nonzero and both within ±100) that validates is
applied and decoding advances by its size, else one byte is discarded.
Decoding is deterministic: `batchLoop` is a pure function of the
payload (and of the engine state only through dispatch effects, not
through the recognized event sequence, which equals the state-free
`specBatchDecode`). -/
theorem C1_batch_decode_priority (s : EngineState) (addr : Addr)
    (sid : Nat) (payload : List Nat)
    (hsess : acontains s.sessions sid = true) (hlen : 1 ≤ payload.length) :
    handle_batchCore s payload addr sid =
      .ok (batchLoop s addr sid (byteAt payload 0) (payload.drop 1)) ∧
    (∀ (count : Nat) (rest : List Nat),
      (batchLoop s addr sid count rest).1 = specBatchDecode count rest) ∧
    (∀ (count : Nat) (rest : List Nat),
      (batchLoop s addr sid count rest).1.length ≤ count) := by
  refine ⟨?_, fun count rest => (batchLoop_events_spec s addr sid count rest).1,
          fun count rest => (batchLoop_events_spec s addr sid count rest).2⟩
  unfold handle_batchCore
  rw [if_neg (by simp [hsess]), if_neg (by omega)]

/-- Witness for C1 at a concrete input: a session table containing
session 1000, and a BATCH payload with `event_count = 2` followed by two
5-byte BUTTON sub-events (codes 0x0001 and 0x0002). -/
theorem C1_batch_decode_priority_witness :
    handle_batchCore
      ⟨[(1000, ⟨1000, (0, 0), some ⟨false, false, true⟩, 0, [], 0, 0, []⟩)],
       [((0, 0), 1000)], 1001, true⟩
      [2, 0, 0, 1, 0, 1, 0, 0, 2, 0, 0] (0, 0) 1000 =
      .ok (batchLoop
        ⟨[(1000, ⟨1000, (0, 0), some ⟨false, false, true⟩, 0, [], 0, 0, []⟩)],
         [((0, 0), 1000)], 1001, true⟩ (0, 0) 1000 2
        [0, 0, 1, 0, 1, 0, 0, 2, 0, 0]) ∧
    (batchLoop
        ⟨[(1000, ⟨1000, (0, 0), some ⟨false, false, true⟩, 0, [], 0, 0, []⟩)],
         [((0, 0), 1000)], 1001, true⟩ (0, 0) 1000 2
        [0, 0, 1, 0, 1, 0, 0, 2, 0, 0]).1 =
      specBatchDecode 2 [0, 0, 1, 0, 1, 0, 0, 2, 0, 0] :=
  ⟨(C1_batch_decode_priority
      ⟨[(1000, ⟨1000, (0, 0), some ⟨false, false, true⟩, 0, [], 0, 0, []⟩)],
       [((0, 0), 1000)], 1001, true⟩ (0, 0) 1000
      [2, 0, 0, 1, 0, 1, 0, 0, 2, 0, 0] (by decide) (by decide)).1,
   (C1_batch_decode_priority
      ⟨[(1000, ⟨1000, (0, 0), some ⟨false, false, true⟩, 0, [], 0, 0, []⟩)],
       [((0, 0), 1000)], 1001, true⟩ (0, 0) 1000
      [2, 0, 0, 1, 0, 1, 0, 0, 2, 0, 0] (by decide) (by decide)).2.1 2
      [0, 0, 1, 0, 1, 0, 0, 2, 0, 0]⟩

/-- C2: over every sequence of registry acquire/release operations (the
single lock serializes them, so a trace of atomic operations covers all
interleavings): every refcount stays non-negative (a release on a type
with no live instance is a no-op, and a stored count is floored at 0);
a type is live exactly when its refcount is at least 1; instance keys
are unique, so at most one live instance exists per type; an acquire
invokes the constructor exactly when no live instance exists (the 0→1
transition, count going c→c+1, with c = 0 there); a release invokes
`close()` exactly when the type is live with refcount 1 (the 1→0
transition), removing the instance at that same step, and otherwise
only decrements. -/
theorem C2_registry_refcount_lifecycle (ops : List RegOp) :
    (∀ k, 0 ≤ regCount (regRun regInit ops) k) ∧
    (∀ k, regLive (regRun regInit ops) k = true ↔
      1 ≤ regCount (regRun regInit ops) k) ∧
    (akeys (regRun regInit ops).instances).Nodup ∧
    (∀ name, (regStep (regRun regInit ops) (.acquire name)).2 =
      (if regConstructors.contains (pyLower name) = true then
        (if regLive (regRun regInit ops) (pyLower name) = true then []
         else [.construct (pyLower name)])
       else [.errUnknownType name])) ∧
    (∀ name, regCount (regStep (regRun regInit ops) (.acquire name)).1 (pyLower name) =
      (if regConstructors.contains (pyLower name) = true
       then regCount (regRun regInit ops) (pyLower name) + 1
       else regCount (regRun regInit ops) (pyLower name))) ∧
    (∀ name, (regStep (regRun regInit ops) (.release name)).2 =
      (if regLive (regRun regInit ops) (pyLower name) = true ∧
          regCount (regRun regInit ops) (pyLower name) = 1
       then [.close (pyLower name)] else [])) ∧
    (∀ name, regCount (regStep (regRun regInit ops) (.release name)).1 (pyLower name) =
      (if regLive (regRun regInit ops) (pyLower name) = true
       then max 0 (regCount (regRun regInit ops) (pyLower name) - 1)
       else regCount (regRun regInit ops) (pyLower name))) ∧
    (∀ name, regLive (regStep (regRun regInit ops) (.release name)).1 (pyLower name) =
      (regLive (regRun regInit ops) (pyLower name) &&
        decide (2 ≤ regCount (regRun regInit ops) (pyLower name)))) := by
  have hinv : RegInv (regRun regInit ops) := regInv_run ops regInit regInv_init
  set s := regRun regInit ops with hsdef
  obtain ⟨h1, h2, h3⟩ := hinv
  refine ⟨?_, ?_, h1, ?_, ?_, ?_, ?_, ?_⟩
  · intro k
    rw [regCount, alookupD]
    cases ho : alookup s.clientCounts k with
    | none => simp
    | some w =>
      have := h3 k w ho
      simp only [Option.getD_some]
      omega
  · intro k
    constructor
    · intro hl
      obtain ⟨w, _, hw1, hwc⟩ := regLive_some_count s ⟨h1, h2, h3⟩ k hl
      rw [hwc]
      exact hw1
    · intro hc
      by_cases hl : regLive s k
      · exact hl
      · have hz := regCount_zero_of_not_live s ⟨h1, h2, h3⟩ k (by simpa using hl)
        rw [hz] at hc
        exact absurd hc (by norm_num)
  · intro name
    by_cases hv : regConstructors.contains (pyLower name)
    · by_cases hl : regLive s (pyLower name)
      · rw [regStep_acquire_live s name hv hl, if_pos hv, if_pos hl]
      · have hlF : regLive s (pyLower name) = false := by simpa using hl
        rw [regStep_acquire_new s name hv hlF, if_pos hv, if_neg (by simp [hlF])]
    · have hvF : regConstructors.contains (pyLower name) = false := by simpa using hv
      rw [regStep_acquire_invalid s name hvF, if_neg (by rw [hvF]; simp)]
  · intro name
    by_cases hv : regConstructors.contains (pyLower name)
    · by_cases hl : regLive s (pyLower name)
      · obtain ⟨w, hwo, _, hwc⟩ := regLive_some_count s ⟨h1, h2, h3⟩ (pyLower name) hl
        rw [regStep_acquire_live s name hv hl, if_pos hv]
        show alookupD (aupdate s.clientCounts (pyLower name) (fun c => c + 1))
          (pyLower name) 0 = _
        rw [alookupD, alookup_aupdate, if_pos rfl, hwo, hwc]
        rfl
      · have hlF : regLive s (pyLower name) = false := by simpa using hl
        rw [regStep_acquire_new s name hv hlF, if_pos hv,
            regCount_zero_of_not_live s ⟨h1, h2, h3⟩ (pyLower name) hlF]
        show alookupD (aupdate (ainsert s.clientCounts (pyLower name) 0)
          (pyLower name) (fun c => c + 1)) (pyLower name) 0 = _
        rw [alookupD, alookup_aupdate, if_pos rfl, alookup_ainsert_self]
        rfl
    · have hvF : regConstructors.contains (pyLower name) = false := by simpa using hv
      rw [regStep_acquire_invalid s name hvF, if_neg (by rw [hvF]; simp)]
  · intro name
    by_cases hl : regLive s (pyLower name)
    · obtain ⟨w, hwo, hw1, hwc⟩ := regLive_some_count s ⟨h1, h2, h3⟩ (pyLower name) hl
      have hD : alookupD s.clientCounts (pyLower name) 0 = w := by
        simp [alookupD, hwo]
      by_cases hw : regCount s (pyLower name) = 1
      · have hweq : w = 1 := by rw [hwc] at hw; exact hw
        have hz : max 0 (alookupD s.clientCounts (pyLower name) 0 - 1) = 0 := by
          rw [hD, hweq]
          simp
        rw [regStep_release_last s name hl hz, if_pos ⟨hl, hw⟩]
      · have hw2 : 2 ≤ w := by rw [hwc] at hw; omega
        have hz : ¬max 0 (alookupD s.clientCounts (pyLower name) 0 - 1) = 0 := by
          rw [hD, max_eq_right (by omega)]
          omega
        rw [regStep_release_dec s name hl hz, if_neg (by rw [hwc]; omega)]
    · have hlF : regLive s (pyLower name) = false := by simpa using hl
      rw [regStep_release_dead s name hlF, if_neg (by simp [hlF])]
  · intro name
    by_cases hl : regLive s (pyLower name)
    · obtain ⟨w, hwo, hw1, hwc⟩ := regLive_some_count s ⟨h1, h2, h3⟩ (pyLower name) hl
      have hD : alookupD s.clientCounts (pyLower name) 0 = w := by
        simp [alookupD, hwo]
      by_cases hw : regCount s (pyLower name) = 1
      · have hweq : w = 1 := by rw [hwc] at hw; exact hw
        have hz : max 0 (alookupD s.clientCounts (pyLower name) 0 - 1) = 0 := by
          rw [hD, hweq]
          simp
        rw [regStep_release_last s name hl hz, if_pos hl]
        show alookupD (aerase s.clientCounts (pyLower name)) (pyLower name) 0 = _
        rw [alookupD, alookup_aerase_self, hwc, hweq]
        rfl
      · have hw2 : 2 ≤ w := by rw [hwc] at hw; omega
        have hz : ¬max 0 (alookupD s.clientCounts (pyLower name) 0 - 1) = 0 := by
          rw [hD, max_eq_right (by omega)]
          omega
        rw [regStep_release_dec s name hl hz, if_pos hl]
        show alookupD (aupdate s.clientCounts (pyLower name) (fun c => max 0 (c - 1)))
          (pyLower name) 0 = _
        rw [alookupD, alookup_aupdate, if_pos rfl, hwo, hwc]
        rfl
    · have hlF : regLive s (pyLower name) = false := by simpa using hl
      rw [regStep_release_dead s name hlF, if_neg (by simp [hlF])]
  · intro name
    by_cases hl : regLive s (pyLower name)
    · obtain ⟨w, hwo, hw1, hwc⟩ := regLive_some_count s ⟨h1, h2, h3⟩ (pyLower name) hl
      have hD : alookupD s.clientCounts (pyLower name) 0 = w := by
        simp [alookupD, hwo]
      by_cases hw : regCount s (pyLower name) = 1
      · have hweq : w = 1 := by rw [hwc] at hw; exact hw
        have hz : max 0 (alookupD s.clientCounts (pyLower name) 0 - 1) = 0 := by
          rw [hD, hweq]
          simp
        rw [regStep_release_last s name hl hz]
        show acontains (aerase s.instances (pyLower name)) (pyLower name) = _
        rw [acontains, alookup_aerase_self, hl, hwc, hweq]
        simp
      · have hw2 : 2 ≤ w := by rw [hwc] at hw; omega
        have hz : ¬max 0 (alookupD s.clientCounts (pyLower name) 0 - 1) = 0 := by
          rw [hD, max_eq_right (by omega)]
          omega
        rw [regStep_release_dec s name hl hz]
        show regLive s (pyLower name) = _
        rw [hl, hwc]
        simp [hw2]
    · have hlF : regLive s (pyLower name) = false := by simpa using hl
      rw [regStep_release_dead s name hlF, hlF]
      simp

/-- Witness for C2 at a concrete trace: two acquires of "standard"
followed by one release leave a live instance with refcount 2 going to
1; the theorem instantiated there shows the next release is not yet the
1→0 transition, and concretely the event lists match. -/
theorem C2_registry_refcount_lifecycle_witness :
    ((regStep (regRun regInit [.acquire "standard", .acquire "standard",
        .release "standard"]) (.release "standard")).2 =
      (if regLive (regRun regInit [.acquire "standard", .acquire "standard",
            .release "standard"]) (pyLower "standard") = true ∧
          regCount (regRun regInit [.acquire "standard", .acquire "standard",
            .release "standard"]) (pyLower "standard") = 1
       then [.close (pyLower "standard")] else [])) ∧
    (regStep (regRun regInit [.acquire "standard", .acquire "standard",
        .release "standard"]) (.release "standard")).2 = [RegEvent.close "standard"] :=
  ⟨(C2_registry_refcount_lifecycle [.acquire "standard", .acquire "standard",
      .release "standard"]).2.2.2.2.2.1 "standard",
   by decide⟩

/-- C3: for every list `evs` of well-formed 5-byte BUTTON sub-events
(each resolving to a button-kind control code), with the source address
mapped to a live session and the header session id bound to a device,
the device-call sequence produced by one BATCH datagram whose payload is
`event_count = evs.length` followed by the concatenation of the
sub-events equals the device-call sequence produced by running the same
sub-events as individual BUTTON datagrams; and that sequence has exactly
`evs.length` calls, one `set_button` per sub-event, in payload order. -/
theorem C3_batch_equals_individual_buttons (s : EngineState) (addr : Addr)
    (sid sidh seqB seqb now : Nat) (sess : Session) (dev : DeviceCaps)
    (evs : List (List Nat))
    (hA : acontains s.addrToSession addr = true)
    (hMap : alookupD s.addrToSession addr 0 = sid)
    (hc : acontains s.sessions sid = true)
    (hs : alookup s.sessions sidh = some sess)
    (hd : sess.device = some dev)
    (h32 : sidh < 4294967296) (hB : seqB < 4294967296) (hb : seqb < 4294967296)
    (hN : evs.length < 256)
    (hwf : ∀ e ∈ evs, wellFormedButtonEvent e) :
    (datagram_received s
        (mkHeader MSG_BATCH sidh seqB ++ (evs.length :: evs.join)) addr now).2.calls =
      (runEngEff s (evs.map (fun e =>
        EngOp.dgram (mkHeader MSG_BUTTON sidh seqb ++ e) addr now))).2.calls ∧
    (datagram_received s
        (mkHeader MSG_BATCH sidh seqB ++ (evs.length :: evs.join)) addr now).2.calls.length =
      evs.length := by
  have hcont : acontains (touch s sid now).sessions sidh = true := by
    rw [acontains_touch]
    unfold acontains
    rw [hs]
    rfl
  have hbatch : (datagram_received s
      (mkHeader MSG_BATCH sidh seqB ++ (evs.length :: evs.join)) addr now).2.calls =
      (evs.map (fun e => (handle_button s e addr sidh).calls)).join := by
    rw [datagram_to_dispatch s MSG_BATCH sidh seqB now (evs.length :: evs.join)
          addr sid hA hMap hc h32 hB, dispatch_batch_eq]
    show (handle_batch (touch s sid now) (evs.length :: evs.join) addr sidh).calls = _
    have hcoreEq : handle_batchCore (touch s sid now) (evs.length :: evs.join) addr sidh =
        .ok (batchLoop (touch s sid now) addr sidh evs.length evs.join) := by
      unfold handle_batchCore
      rw [if_neg (by rw [hcont]; simp), if_neg (by simp)]
      rfl
    rw [show handle_batch (touch s sid now) (evs.length :: evs.join) addr sidh =
        (batchLoop (touch s sid now) addr sidh evs.length evs.join).2 from by
      unfold handle_batch
      rw [hcoreEq]]
    rw [batchLoop_button_join (touch s sid now) addr sidh evs hwf]
    have hmapped : evs.map (fun e => handle_button (touch s sid now) e addr sidh) =
        evs.map (fun e => handle_button s e addr sidh) :=
      List.map_congr_left (fun e _ => handle_button_touch s sid now e addr sidh)
    rw [hmapped, concatEffects_calls, List.map_map]
    rfl
  have hbtn : (runEngEff s (evs.map (fun e =>
      EngOp.dgram (mkHeader MSG_BUTTON sidh seqb ++ e) addr now))).2.calls =
      (evs.map (fun e => (handle_button s e addr sidh).calls)).join :=
    runEngEff_buttons sidh seqb now addr h32 hb evs s sid hA hMap hc
  have hone : ∀ e ∈ evs, ((handle_button s e addr sidh).calls).length = 1 := by
    intro e he
    obtain ⟨nm, hnm⟩ := handle_button_one_call s e addr sidh sess dev hs hd (hwf e he)
    rw [hnm]
    rfl
  exact ⟨hbatch.trans hbtn.symm, by
    rw [hbatch]
    exact join_length_of_one (fun e => (handle_button s e addr sidh).calls) evs hone⟩

/-- Witness for C3 at a concrete input: session 1000 with a bound device,
address (0,0) mapped to it, and two BUTTON sub-events with codes 0x0001
(pressed) and 0x0002 (released); the batch datagram and the two separate
BUTTON datagrams produce the same two device calls. -/
theorem C3_batch_equals_individual_buttons_witness :
    (datagram_received
        ⟨[(1000, ⟨1000, (0, 0), some ⟨false, false, true⟩, 0, [], 0, 0, []⟩)],
         [((0, 0), 1000)], 1001, true⟩
        (mkHeader MSG_BATCH 1000 0 ++ (2 :: [1, 0, 1, 0, 1, 2, 0, 2, 0, 0]))
        (0, 0) 5).2.calls =
      (runEngEff
        ⟨[(1000, ⟨1000, (0, 0), some ⟨false, false, true⟩, 0, [], 0, 0, []⟩)],
         [((0, 0), 1000)], 1001, true⟩
        [EngOp.dgram (mkHeader MSG_BUTTON 1000 0 ++ [1, 0, 1, 0, 1]) (0, 0) 5,
         EngOp.dgram (mkHeader MSG_BUTTON 1000 0 ++ [2, 0, 2, 0, 0]) (0, 0) 5]).2.calls ∧
    (datagram_received
        ⟨[(1000, ⟨1000, (0, 0), some ⟨false, false, true⟩, 0, [], 0, 0, []⟩)],
         [((0, 0), 1000)], 1001, true⟩
        (mkHeader MSG_BATCH 1000 0 ++ (2 :: [1, 0, 1, 0, 1, 2, 0, 2, 0, 0]))
        (0, 0) 5).2.calls.length = 2 :=
  C3_batch_equals_individual_buttons
    ⟨[(1000, ⟨1000, (0, 0), some ⟨false, false, true⟩, 0, [], 0, 0, []⟩)],
     [((0, 0), 1000)], 1001, true⟩ (0, 0) 1000 1000 0 0 5
    ⟨1000, (0, 0), some ⟨false, false, true⟩, 0, [], 0, 0, []⟩
    ⟨false, false, true⟩ [[1, 0, 1, 0, 1], [2, 0, 2, 0, 0]]
    rfl rfl rfl rfl rfl (by decide) (by decide) (by decide) (by decide)
    (by intro e he; fin_cases he <;> exact ⟨rfl, rfl⟩)

/-- C4: the id counter starts at 1000; over any run (any sequence of
datagrams and task completions) the ids assigned to created sessions
form exactly the range 1000, 1001, ... (one increment per created
session, hence strictly increasing), the counter equals 1000 plus the
number of created sessions, the active ids are pairwise distinct and
all lie below the counter (so an id is never reused while its session
is active), and every well-formed HELLO creates a session whose id is
the current counter value and replies WELCOME carrying that id. -/
theorem C4_session_id_assignment (hr : Bool) (ops : List EngOp) :
    (initState hr).nextSessionId = 1000 ∧
    createdIds (initState hr) ops =
      List.range' 1000 (createdIds (initState hr) ops).length ∧
    (runEng (initState hr) ops).nextSessionId =
      1000 + (createdIds (initState hr) ops).length ∧
    (akeys (runEng (initState hr) ops).sessions).Nodup ∧
    (∀ id ∈ akeys (runEng (initState hr) ops).sessions,
      1000 ≤ id ∧ id < (runEng (initState hr) ops).nextSessionId) ∧
    (∀ (s : EngineState) (payload : List Nat) (addr : Addr) (seq now : Nat),
      wellFormedHello payload = true →
      (handle_hello s payload addr seq now).1.nextSessionId = s.nextSessionId + 1 ∧
      (∃ sess : Session,
        alookup (handle_hello s payload addr seq now).1.sessions s.nextSessionId =
          some sess ∧ sess.sessionId = s.nextSessionId ∧ sess.clientAddr = addr) ∧
      (handle_hello s payload addr seq now).2 =
        effFrame (mkWelcomeFrame addr s.nextSessionId seq)) := by
  have hinv := engInv_runEng ops (initState hr) (engInv_init hr)
  refine ⟨rfl, ?_, ?_, hinv.2.1, hinv.2.2, ?_⟩
  · exact createdIds_eq_range ops (initState hr)
  · exact runEng_next ops (initState hr)
  · intro s payload addr seq now hw
    have hlook : alookup (handle_hello s payload addr seq now).1.sessions
        s.nextSessionId =
        some (mkSession s.nextSessionId addr now
          (if 0 < u16le (byteAt payload 0) (byteAt payload 1) then byteAt payload 2
           else 0)
          (seg payload (2 + u16le (byteAt payload 0) (byteAt payload 1) + 1)
            (2 + u16le (byteAt payload 0) (byteAt payload 1) + 1 +
              byteAt payload (2 + u16le (byteAt payload 0) (byteAt payload 1))))) := by
      rw [handle_hello_success s payload addr seq now hw]
      show alookup (ainsert s.sessions s.nextSessionId _) s.nextSessionId = _
      exact alookup_ainsert_self _ _ _
    exact ⟨by rw [handle_hello_success s payload addr seq now hw],
           ⟨_, hlook, rfl, rfl⟩,
           by rw [handle_hello_success s payload addr seq now hw]⟩

/-- Witness for C4 at a concrete run: two well-formed HELLOs from two
addresses yield assigned ids [1000, 1001], counter 1002, and a freshly
created session for a third HELLO would get the current counter. -/
theorem C4_session_id_assignment_witness :
    createdIds (initState true)
        [EngOp.dgram [1, 1, 0, 0, 0, 0, 0, 0, 0, 0, 0, 0, 0, 0, 0, 0] (5, 5) 0,
         EngOp.dgram [1, 1, 0, 0, 0, 0, 0, 0, 0, 0, 0, 0, 0, 0, 0, 0] (6, 6) 1] =
      List.range' 1000 (createdIds (initState true)
        [EngOp.dgram [1, 1, 0, 0, 0, 0, 0, 0, 0, 0, 0, 0, 0, 0, 0, 0] (5, 5) 0,
         EngOp.dgram [1, 1, 0, 0, 0, 0, 0, 0, 0, 0, 0, 0, 0, 0, 0, 0] (6, 6) 1]).length ∧
    (1000 ≤ 1000 ∧ 1000 < (runEng (initState true)
        [EngOp.dgram [1, 1, 0, 0, 0, 0, 0, 0, 0, 0, 0, 0, 0, 0, 0, 0] (5, 5) 0,
         EngOp.dgram [1, 1, 0, 0, 0, 0, 0, 0, 0, 0, 0, 0, 0, 0, 0, 0] (6, 6) 1]).nextSessionId) ∧
    (handle_hello (initState true) [0, 0, 0, 0] (7, 7) 3 9).1.nextSessionId =
      (initState true).nextSessionId + 1 :=
  ⟨(C4_session_id_assignment true
      [EngOp.dgram [1, 1, 0, 0, 0, 0, 0, 0, 0, 0, 0, 0, 0, 0, 0, 0] (5, 5) 0,
       EngOp.dgram [1, 1, 0, 0, 0, 0, 0, 0, 0, 0, 0, 0, 0, 0, 0, 0] (6, 6) 1]).2.1,
   (C4_session_id_assignment true
      [EngOp.dgram [1, 1, 0, 0, 0, 0, 0, 0, 0, 0, 0, 0, 0, 0, 0, 0] (5, 5) 0,
       EngOp.dgram [1, 1, 0, 0, 0, 0, 0, 0, 0, 0, 0, 0, 0, 0, 0, 0] (6, 6) 1]).2.2.2.2.1
      1000 (by decide),
   ((C4_session_id_assignment true []).2.2.2.2.2 (initState true) [0, 0, 0, 0]
      (7, 7) 3 9 (by decide)).1⟩

/-- C5 counterexample: the bijection claim fails on the code. Two
well-formed HELLOs from the same address reach a state with two active
sessions (1000 and 1001) but a single address entry (pointing at 1001):
session 1000 is active yet referenced by no address entry, so the
address map is not a bijection over the active sessions in this
reachable state. -/
theorem C5_counterexample_two_hellos_same_addr :
    addrMapBijective (runEng (initState true)
      [.dgram [1, 1, 0, 0, 0, 0, 0, 0, 0, 0, 0, 0, 0, 0, 0, 0] (5, 5) 0,
       .dgram [1, 1, 0, 0, 0, 0, 0, 0, 0, 0, 0, 0, 0, 0, 0, 0] (5, 5) 1]) = false ∧
    akeys (runEng (initState true)
      [.dgram [1, 1, 0, 0, 0, 0, 0, 0, 0, 0, 0, 0, 0, 0, 0, 0] (5, 5) 0,
       .dgram [1, 1, 0, 0, 0, 0, 0, 0, 0, 0, 0, 0, 0, 0, 0, 0] (5, 5) 1]).sessions =
      [1000, 1001] ∧
    (runEng (initState true)
      [.dgram [1, 1, 0, 0, 0, 0, 0, 0, 0, 0, 0, 0, 0, 0, 0, 0] (5, 5) 0,
       .dgram [1, 1, 0, 0, 0, 0, 0, 0, 0, 0, 0, 0, 0, 0, 0, 0] (5, 5) 1]).addrToSession =
      [((5, 5), 1001)] := by
  refine ⟨by decide, by decide, by decide⟩

/-- C5 (amended): the address-to-session-id map is a bijection over the
active sessions in every state reachable by a trace in which each HELLO
originates from an address with no current map entry and each
SESSION_END for a live session originates from the address mapped to
that session. Without these restrictions the invariant fails (see the
counterexample: a second HELLO from the same address orphans the first
session, and a SESSION_END naming another address's session dangles or
orphans entries). -/
theorem C5_addr_map_bijection_good_traces (hr : Bool) (ops : List EngOp)
    (hg : goodTrace (initState hr) ops = true) :
    addrMapBijective (runEng (initState hr) ops) = true := by
  have hInv := engInv_runEng ops (initState hr) (engInv_init hr)
  have hB := addrBij_goodTrace ops (initState hr) (engInv_init hr)
    ⟨rfl, List.nodup_nil⟩ hg
  exact addrMapBijective_of_addrBij _ hInv.2.1 hB

/-- Witness for the amended C5: two HELLOs from two distinct addresses
form a good trace, and the reached state's address map is bijective. -/
theorem C5_addr_map_bijection_good_traces_witness :
    addrMapBijective (runEng (initState true)
      [.dgram [1, 1, 0, 0, 0, 0, 0, 0, 0, 0, 0, 0, 0, 0, 0, 0] (5, 5) 0,
       .dgram [1, 1, 0, 0, 0, 0, 0, 0, 0, 0, 0, 0, 0, 0, 0, 0] (6, 6) 1]) = true :=
  C5_addr_map_bijection_good_traces true
    [.dgram [1, 1, 0, 0, 0, 0, 0, 0, 0, 0, 0, 0, 0, 0, 0, 0] (5, 5) 0,
     .dgram [1, 1, 0, 0, 0, 0, 0, 0, 0, 0, 0, 0, 0, 0, 0, 0] (6, 6) 1] (by decide)

/-- C6: for every BUTTON or AXIS message whose control code is absent
from the Control Code Table or resolves to the wrong kind, dispatch
performs no device call and sends no frame of any kind (in particular no
ERROR frame) and leaves the state unchanged: the event is a silent
no-op, whatever the session/device state. -/
theorem C6_unknown_code_silent_noop (s : EngineState) (payload : List Nat)
    (addr : Addr) (sid seq flags now : Nat) :
    (isButtonCode (u16le (byteAt payload 2) (byteAt payload 3)) = false →
      dispatch_message s MSG_BUTTON payload addr sid seq flags now = (s, effNone)) ∧
    (isAxisCode (u16le (byteAt payload 2) (byteAt payload 3)) = false →
      dispatch_message s MSG_AXIS payload addr sid seq flags now = (s, effNone)) := by
  constructor
  · intro hb
    unfold dispatch_message
    norm_num [MSG_BUTTON, MSG_HELLO, MSG_PING, MSG_CONNECT, MSG_DISCONNECT]
    exact handle_button_unknown_code s payload addr sid hb
  · intro ha
    unfold dispatch_message
    norm_num [MSG_AXIS, MSG_HELLO, MSG_PING, MSG_CONNECT, MSG_DISCONNECT, MSG_BUTTON]
    exact handle_axis_unknown_code s payload addr sid ha

/-- Witness for C6 at a concrete input: control code `0x0999` is absent
from the table; code `0x0101` is an axis, hence kind-mismatched for
BUTTON; code `0x0001` is a button, hence kind-mismatched for AXIS. -/
theorem C6_unknown_code_silent_noop_witness :
    (dispatch_message (initState true) MSG_BUTTON [0, 0, 0x99, 0x09, 1] (0, 0) 1000 0 0 0 =
      (initState true, effNone)) ∧
    (dispatch_message (initState true) MSG_BUTTON [0, 0, 0x01, 0x01, 1] (0, 0) 1000 0 0 0 =
      (initState true, effNone)) ∧
    (dispatch_message (initState true) MSG_AXIS [0, 0, 0x01, 0x00, 0xFF, 0x7F] (0, 0) 1000 0 0 0 =
      (initState true, effNone)) :=
  ⟨(C6_unknown_code_silent_noop (initState true) [0, 0, 0x99, 0x09, 1] (0, 0) 1000 0 0 0).1
      (by decide),
   (C6_unknown_code_silent_noop (initState true) [0, 0, 0x01, 0x01, 1] (0, 0) 1000 0 0 0).1
      (by decide),
   (C6_unknown_code_silent_noop (initState true) [0, 0, 0x01, 0x00, 0xFF, 0x7F] (0, 0) 1000 0 0 0).2
      (by decide)⟩

/-- C7: an AXIS message with a bound device and an axis-kind control
code invokes `set_axis(name, clamp(value/32767, -1, 1))`; the value
32767 normalizes to exactly 1, -32768 clamps to exactly -1, and 0 maps
to exactly 0. -/
theorem C7_axis_normalization (s : EngineState) (payload : List Nat) (addr : Addr)
    (sid : Nat) (sess : Session) (dev : DeviceCaps) (name : String)
    (hs : alookup s.sessions sid = some sess)
    (hd : sess.device = some dev)
    (hl : 6 ≤ payload.length)
    (hc : control_code_map (u16le (byteAt payload 2) (byteAt payload 3)) =
            some (.axis, name)) :
    handle_axis s payload addr sid =
      effCall (.setAxis name
        (normalizeAxis (toI16 (u16le (byteAt payload 4) (byteAt payload 5))))) ∧
    normalizeAxis 32767 = 1 ∧ normalizeAxis (-32768) = -1 ∧ normalizeAxis 0 = 0 := by
  refine ⟨?_, ?_, ?_, ?_⟩
  · have hnl : ¬payload.length < 6 := by omega
    simp [handle_axis, handle_axisCore, hs, hd, hnl, hc]
  · rw [normalizeAxis]
    norm_num
  · rw [normalizeAxis]
    push_cast
    rw [min_eq_right (by norm_num), max_eq_left (by norm_num)]
  · rw [normalizeAxis]
    norm_num

/-- Witness for C7 at a concrete input: a bound session, code `0x0101`
(axis `lx`), value bytes `FF 7F` = 32767. -/
theorem C7_axis_normalization_witness :
    handle_axis
      ⟨[(1000, ⟨1000, (0, 0), some ⟨false, false, true⟩, 0, [], 0, 0, []⟩)],
       [((0, 0), 1000)], 1001, true⟩
      [0, 0, 0x01, 0x01, 0xFF, 0x7F] (0, 0) 1000 =
      effCall (.setAxis "lx" (normalizeAxis (toI16 (u16le 0xFF 0x7F)))) ∧
    normalizeAxis 32767 = 1 ∧ normalizeAxis (-32768) = -1 ∧ normalizeAxis 0 = 0 :=
  C7_axis_normalization
    ⟨[(1000, ⟨1000, (0, 0), some ⟨false, false, true⟩, 0, [], 0, 0, []⟩)],
     [((0, 0), 1000)], 1001, true⟩
    [0, 0, 0x01, 0x01, 0xFF, 0x7F] (0, 0) 1000
    ⟨1000, (0, 0), some ⟨false, false, true⟩, 0, [], 0, 0, []⟩
    ⟨false, false, true⟩ "lx" rfl rfl (by decide) (by decide)

/-- C8: a datagram shorter than 12 bytes is silently dropped (no reply,
no state change); a datagram whose version byte differs from the
supported protocol version is answered with ERROR("UnsupportedVersion")
addressed with session id 0, with no state (including `last_seen`)
updated. -/
theorem C8_short_drop_and_version_error (s : EngineState) (data : List Nat)
    (addr : Addr) (now : Nat) :
    (data.length < 12 → datagram_received s data addr now = (s, effNone)) ∧
    (12 ≤ data.length → byteAt data 0 ≠ PROTOCOL_VERSION →
      datagram_received s data addr now =
        (s, effFrame (mkErrorFrame addr 0 "UnsupportedVersion"
              "Protocol version not supported"))) := by
  constructor
  · intro h
    unfold datagram_received
    rw [if_pos h]
  · intro hl hv
    unfold datagram_received
    rw [if_neg (by omega), if_pos hv]

/-- Witness for C8 at concrete inputs: a 1-byte datagram and a 12-byte
datagram with version byte 2. -/
theorem C8_short_drop_and_version_error_witness :
    datagram_received (initState true) [7] (0, 0) 5 = (initState true, effNone) ∧
    datagram_received (initState true) [2, 3, 0, 0, 0, 0, 0, 0, 0, 0, 0, 0] (0, 0) 5 =
      (initState true,
       effFrame (mkErrorFrame (0, 0) 0 "UnsupportedVersion"
         "Protocol version not supported")) :=
  ⟨(C8_short_drop_and_version_error (initState true) [7] (0, 0) 5).1 (by decide),
   (C8_short_drop_and_version_error (initState true)
      [2, 3, 0, 0, 0, 0, 0, 0, 0, 0, 0, 0] (0, 0) 5).2 (by decide) (by decide)⟩

/-- C9 counterexample: a BUTTON datagram for an unknown session takes a
handled error path (`_handle_button` raises and catches "Unknown
session") yet no ERROR frame — no frame at all — is sent, refuting
"every handled error path results in an ERROR frame". Datagram: valid
12-byte header (version 1, type BUTTON, session id 7) plus a 5-byte
button payload, against the initial (empty) engine state. -/
theorem C9_counterexample_handled_error_without_frame :
    handle_buttonCore (initState true) [0, 0, 1, 0, 1] 7 = .error "Unknown session" ∧
    (datagram_received (initState true)
        [1, 0x20, 0, 0, 7, 0, 0, 0, 0, 0, 0, 0, 0, 0, 1, 0, 1] (0, 0) 0).2.frames = [] ∧
    (datagram_received (initState true)
        [1, 0x20, 0, 0, 7, 0, 0, 0, 0, 0, 0, 0, 0, 0, 1, 0, 1] (0, 0) 0).1 =
      initState true := by
  refine ⟨rfl, rfl, rfl⟩

/-- C9 (amended): exceptions reaching the per-packet dispatch boundary
are caught and converted to exactly one ERROR("InternalError") frame to
the originating address with no state change (on the modelled paths this
is the `KeyError` of the `last_seen` update when the address map points
at a session id absent from the session table); processing always
completes. Errors raised inside the input-event handlers and DISCONNECT
are caught locally and produce no frame at all (an unknown session id on
any input-event message is a silent no-op). -/
theorem C9_boundary_internal_error_and_local_silence :
    (∀ (s : EngineState) (data : List Nat) (addr : Addr) (now : Nat),
      12 ≤ data.length → byteAt data 0 = PROTOCOL_VERSION →
      acontains s.addrToSession addr = true →
      acontains s.sessions (alookupD s.addrToSession addr 0) = false →
      datagram_received s data addr now =
        (s, effFrame (mkErrorFrame addr 0 "InternalError" "KeyError"))) ∧
    (∀ (s : EngineState) (payload : List Nat) (addr : Addr) (sid : Nat),
      acontains s.sessions sid = false →
      handle_button s payload addr sid = effNone ∧
      handle_axis s payload addr sid = effNone ∧
      handle_mouse_move s payload addr sid = effNone ∧
      handle_mouse_button s payload addr sid = effNone ∧
      handle_mouse_scroll s payload addr sid = effNone ∧
      handle_batch s payload addr sid = effNone ∧
      handle_disconnect s sid = (s, effNone)) := by
  constructor
  · intro s data addr now hl hv hmap hc
    have h12 : ¬data.length < 12 := by omega
    simp [datagram_received, h12, hv, hmap, hc]
  · intro s payload addr sid hc
    have hnone : alookup s.sessions sid = none := (acontains_false_iff _ _).1 hc
    refine ⟨?_, ?_, ?_, ?_, ?_, ?_, ?_⟩
    · simp [handle_button, handle_buttonCore, hnone]
    · simp [handle_axis, handle_axisCore, hnone]
    · simp [handle_mouse_move, handle_mouse_moveCore, hnone]
    · simp [handle_mouse_button, handle_mouse_buttonCore, hnone]
    · simp [handle_mouse_scroll, handle_mouse_scrollCore, hnone]
    · simp [handle_batch, handle_batchCore, hc]
    · simp [handle_disconnect, hnone]

/-- Witness for the amended C9: a PING datagram from an address whose
map entry dangles (points at session 55 which is not in the table)
yields exactly one ERROR("InternalError") frame; a BUTTON payload for
unknown session 7 on the empty engine is fully silent. -/
theorem C9_boundary_internal_error_and_local_silence_witness :
    datagram_received ⟨[], [((0, 0), 55)], 1000, true⟩
        [1, 3, 0, 0, 0, 0, 0, 0, 0, 0, 0, 0] (0, 0) 9 =
      (⟨[], [((0, 0), 55)], 1000, true⟩,
       effFrame (mkErrorFrame (0, 0) 0 "InternalError" "KeyError")) ∧
    handle_button (initState true) [0, 0, 1, 0, 1] (0, 0) 7 = effNone :=
  ⟨(C9_boundary_internal_error_and_local_silence.1
      ⟨[], [((0, 0), 55)], 1000, true⟩ [1, 3, 0, 0, 0, 0, 0, 0, 0, 0, 0, 0]
      (0, 0) 9 (by decide) (by decide) (by decide) (by decide)),
   (C9_boundary_internal_error_and_local_silence.2
      (initState true) [0, 0, 1, 0, 1] (0, 0) 7 (by decide)).1⟩

/-- C10: for a session with a successfully bound device, DISCONNECT
schedules exactly one registry release for the recorded `device_type`
and clears the device reference while retaining `device_type`; a further
DISCONNECT or SESSION_END on the now-unbound session schedules no
release, so the refcount is decremented at most once per bind. -/
theorem C10_release_exactly_once (s : EngineState) (sid : Nat) (sess : Session)
    (addr : Addr) (d : DeviceCaps)
    (hs : alookup s.sessions sid = some sess)
    (hr : s.hasRegistry = true) :
    (sess.device = some d → sess.deviceType ≠ [] →
      handle_disconnect s sid =
        ({ s with sessions := aupdate s.sessions sid (fun x => { x with device := none }) },
         effRelease sess.deviceType) ∧
      alookup (handle_disconnect s sid).1.sessions sid =
        some { sess with device := none } ∧
      (handle_disconnect (handle_disconnect s sid).1 sid).2 = effNone ∧
      (handle_session_end (handle_disconnect s sid).1 addr sid).2.releases = []) ∧
    (sess.device = none →
      (handle_disconnect s sid).2 = effNone ∧
      (handle_session_end s addr sid).2.releases = []) := by
  constructor
  · intro hd hdt
    have hcond : sess.device.isSome = true ∧ s.hasRegistry = true ∧
        sess.deviceType ≠ [] := ⟨by rw [hd]; rfl, hr, hdt⟩
    have h1 : handle_disconnect s sid =
        ({ s with sessions := aupdate s.sessions sid (fun x => { x with device := none }) },
         effRelease sess.deviceType) := by
      simp only [handle_disconnect, hs]
      rw [if_pos hcond]
    have h2 : alookup (handle_disconnect s sid).1.sessions sid =
        some { sess with device := none } := by
      simp only [h1]
      rw [alookup_aupdate, if_pos rfl, hs]
      rfl
    refine ⟨h1, h2, ?_, ?_⟩
    · generalize hgen : (handle_disconnect s sid).1 = s2 at h2 ⊢
      simp [handle_disconnect, h2]
    · generalize hgen : (handle_disconnect s sid).1 = s2 at h2 ⊢
      simp [handle_session_end, h2, effNone]
  · intro hd
    have hfalse : ¬(sess.device.isSome = true ∧ s.hasRegistry = true ∧
        sess.deviceType ≠ []) := by
      rw [hd]
      simp
    constructor
    · simp only [handle_disconnect, hs]
      rw [if_neg hfalse]
    · simp only [handle_session_end, hs]
      rw [if_neg hfalse]
      rfl

/-- Witness for C10 at a concrete input: session 1000 bound to a device
of recorded type "standard" (bytes). -/
theorem C10_release_exactly_once_witness :
    (handle_disconnect
        ⟨[(1000, ⟨1000, (0, 0), some ⟨false, false, true⟩, 0,
            [115, 116, 97, 110, 100, 97, 114, 100], 0, 0, []⟩)],
         [((0, 0), 1000)], 1001, true⟩ 1000).2 =
      effRelease [115, 116, 97, 110, 100, 97, 114, 100] ∧
    (handle_disconnect
        (handle_disconnect
          ⟨[(1000, ⟨1000, (0, 0), some ⟨false, false, true⟩, 0,
              [115, 116, 97, 110, 100, 97, 114, 100], 0, 0, []⟩)],
           [((0, 0), 1000)], 1001, true⟩ 1000).1 1000).2 = effNone := by
  have h := C10_release_exactly_once
    ⟨[(1000, ⟨1000, (0, 0), some ⟨false, false, true⟩, 0,
        [115, 116, 97, 110, 100, 97, 114, 100], 0, 0, []⟩)],
     [((0, 0), 1000)], 1001, true⟩ 1000
    ⟨1000, (0, 0), some ⟨false, false, true⟩, 0,
      [115, 116, 97, 110, 100, 97, 114, 100], 0, 0, []⟩
    (0, 0) ⟨false, false, true⟩ rfl rfl
  obtain ⟨h1, h2, h3, _⟩ := h.1 rfl (by decide)
  exact ⟨by rw [h1], h3⟩

end LibrePad
